import Mathlib

/-!
# Verification of the exa-mcp request/response translation layer

This file embeds the data model and the pure operations of the `exa_mcp`
Python package (payload builders, input validators, response formatters,
HTTP-status-to-error mapping, truncation) as executable Lean definitions,
and proves or refutes the specification claims about them.

Conventions of the embedding:
* Python strings are modelled as `List Char`; string literals enter the
  model through `String.data`.
* Parsed JSON values (request payloads, API responses) are modelled by
  the inductive `JVal`; JSON numbers are modelled as integers, which is
  sufficient for every claim under study (the claims depend only on
  whether a number is zero, never on decimal rendering).
* Python dictionaries that the code reads key-by-key are association
  lists `List (String × JVal)` in insertion order.
* `raise`/`except` control flow is modelled with `Except ExaExc`;
  a tool entry point is a total function into `List Char` because its
  `try/except Exception` wrapper converts every failure into a string.
-/

/-- A parsed JSON value (the result of `response.json()` and the contents
of outbound payloads). Numbers are modelled as integers. -/
inductive JVal where
  | jnull : JVal
  | jbool : Bool → JVal
  | jnum : Int → JVal
  | jstr : String → JVal
  | jarr : List JVal → JVal
  | jobj : List (String × JVal) → JVal

/-- Python truthiness of a JSON-parsed value: `None`, `False`, `0`, `""`,
`[]` and `{}` are falsy, everything else truthy. -/
def pyTruthy : JVal → Bool
  | .jnull => false
  | .jbool b => b
  | .jnum n => n != 0
  | .jstr s => s ≠ ""
  | .jarr xs => !xs.isEmpty
  | .jobj fs => !fs.isEmpty

/-- `d.get(k)` on a Python dict: first binding of the key, if any. -/
def pyGet (d : List (String × JVal)) (k : String) : Option JVal :=
  (d.find? (fun e => e.1 = k)).map (·.2)

/-- `d.get(k)` followed by a truthiness test, as in `if result.get("score"):`. -/
def pyGetTruthy (d : List (String × JVal)) (k : String) : Bool :=
  match pyGet d k with
  | some v => pyTruthy v
  | none => false

/-- Decimal digits of a natural number, via `Nat.repr`. -/
def natChars (n : Nat) : List Char := (Nat.repr n).data

/-- Decimal rendering of an integer, as Python `str` renders an `int`. -/
def intChars (n : Int) : List Char :=
  if n < 0 then '-' :: natChars n.natAbs else natChars n.natAbs

mutual
/-- CPython `repr()` restricted to JSON-parsed values: `None`/`True`/`False`,
decimal numbers, single-quoted strings, and bracketed containers. (The
claims never depend on `repr` of a container; string-escaping subtleties
of CPython `repr` are not modelled.) -/
def pyRepr : JVal → List Char
  | .jnull => "None".data
  | .jbool true => "True".data
  | .jbool false => "False".data
  | .jnum n => intChars n
  | .jstr s => '\'' :: s.data ++ ['\'']
  | .jarr xs => '[' :: pyReprArr xs ++ [']']
  | .jobj fs => '\x7b' :: pyReprObj fs ++ ['\x7d']

/-- Comma-separated `repr`s of the elements of a list. -/
def pyReprArr : List JVal → List Char
  | [] => []
  | [x] => pyRepr x
  | x :: y :: xs => pyRepr x ++ ", ".data ++ pyReprArr (y :: xs)

/-- Comma-separated `key: value` `repr`s of the entries of a dict. -/
def pyReprObj : List (String × JVal) → List Char
  | [] => []
  | [(k, v)] => '\'' :: k.data ++ "': ".data ++ pyRepr v
  | (k, v) :: e :: fs => '\'' :: k.data ++ "': ".data ++ pyRepr v ++ ", ".data ++ pyReprObj (e :: fs)
end

/-- CPython `str()` on a JSON-parsed value, as used by f-string
interpolation: strings render as themselves, everything else as `repr`. -/
def pyStr : JVal → List Char
  | .jstr s => s.data
  | v => pyRepr v

/-- JSON string escaping used by `json.dumps` (quote, backslash and the
common control characters; other characters pass through). -/
def jsonEscape : List Char → List Char
  | [] => []
  | c :: cs =>
    (if c = '"' then ("\\\"".data)
     else if c = '\\' then ("\\\\".data)
     else if c = '\n' then ("\\n".data)
     else if c = '\t' then ("\\t".data)
     else if c = '\r' then ("\\r".data)
     else [c]) ++ jsonEscape cs

/-- `k` spaces of indentation. -/
def indentChars (k : Nat) : List Char := List.replicate k ' '

mutual
/-- `json.dumps(v, indent=2)` at nesting depth `d` (the argument is the
current indentation width). -/
def jdumps (d : Nat) : JVal → List Char
  | .jnull => "null".data
  | .jbool true => "true".data
  | .jbool false => "false".data
  | .jnum n => intChars n
  | .jstr s => '"' :: jsonEscape s.data ++ ['"']
  | .jarr [] => "[]".data
  | .jarr (x :: xs) =>
    '[' :: '\n' :: indentChars (d + 2) ++ jdumpsArr (d + 2) (x :: xs)
      ++ '\n' :: indentChars d ++ [']']
  | .jobj [] => "\x7b\x7d".data
  | .jobj (e :: fs) =>
    '\x7b' :: '\n' :: indentChars (d + 2) ++ jdumpsObj (d + 2) (e :: fs)
      ++ '\n' :: indentChars d ++ ['\x7d']

/-- Elements of an array, separated by `,\n` plus indentation. -/
def jdumpsArr (d : Nat) : List JVal → List Char
  | [] => []
  | [x] => jdumps d x
  | x :: y :: xs => jdumps d x ++ ',' :: '\n' :: indentChars d ++ jdumpsArr d (y :: xs)

/-- Entries of an object, separated by `,\n` plus indentation. -/
def jdumpsObj (d : Nat) : List (String × JVal) → List Char
  | [] => []
  | [(k, v)] => '"' :: jsonEscape k.data ++ "\": ".data ++ jdumps d v
  | (k, v) :: f :: fs =>
    '"' :: jsonEscape k.data ++ "\": ".data ++ jdumps d v
      ++ ',' :: '\n' :: indentChars d ++ jdumpsObj d (f :: fs)
end

mutual
/-- Structural boolean equality on `JVal` (used for decidability of the
concrete claims). -/
def JVal.beq : JVal → JVal → Bool
  | .jnull, .jnull => true
  | .jbool a, .jbool b => a == b
  | .jnum a, .jnum b => a == b
  | .jstr a, .jstr b => a == b
  | .jarr a, .jarr b => JVal.beqArr a b
  | .jobj a, .jobj b => JVal.beqObj a b
  | _, _ => false

/-- Elementwise equality of JSON arrays. -/
def JVal.beqArr : List JVal → List JVal → Bool
  | [], [] => true
  | x :: xs, y :: ys => JVal.beq x y && JVal.beqArr xs ys
  | _, _ => false

/-- Entrywise equality of JSON objects. -/
def JVal.beqObj : List (String × JVal) → List (String × JVal) → Bool
  | [], [] => true
  | (k, v) :: xs, (l, w) :: ys => k == l && JVal.beq v w && JVal.beqObj xs ys
  | _, _ => false
end

mutual
/-- `JVal.beq` is sound and complete for propositional equality. -/
theorem JVal.beq_iff : ∀ a b : JVal, JVal.beq a b = true ↔ a = b
  | .jnull, b => by cases b <;> simp [JVal.beq]
  | .jbool a, b => by cases b <;> simp [JVal.beq]
  | .jnum a, b => by cases b <;> simp [JVal.beq]
  | .jstr a, b => by cases b <;> simp [JVal.beq]
  | .jarr a, b => by
    cases b <;> simp [JVal.beq]
    exact JVal.beqArr_iff a _
  | .jobj a, b => by
    cases b <;> simp [JVal.beq]
    exact JVal.beqObj_iff a _

/-- `JVal.beqArr` is sound and complete for propositional equality. -/
theorem JVal.beqArr_iff : ∀ a b : List JVal, JVal.beqArr a b = true ↔ a = b
  | [], b => by cases b <;> simp [JVal.beqArr]
  | x :: xs, b => by
    cases b <;> simp [JVal.beqArr]
    rw [JVal.beq_iff, JVal.beqArr_iff]

/-- `JVal.beqObj` is sound and complete for propositional equality. -/
theorem JVal.beqObj_iff : ∀ a b : List (String × JVal), JVal.beqObj a b = true ↔ a = b
  | [], b => by cases b <;> simp [JVal.beqObj]
  | (k, v) :: xs, b => by
    cases b with
    | nil => simp [JVal.beqObj]
    | cons y ys =>
      obtain ⟨l, w⟩ := y
      simp only [JVal.beqObj, Bool.and_eq_true, beq_iff_eq, JVal.beq_iff, JVal.beqObj_iff,
        List.cons.injEq, Prod.mk.injEq]
      try tauto
end

instance : DecidableEq JVal := fun a b =>
  decidable_of_iff (JVal.beq a b = true) (JVal.beq_iff a b)

/-- `json.dumps(data, indent=2)` on a response dictionary. -/
def jdumpsTop (data : List (String × JVal)) : List Char := jdumps 0 (.jobj data)

/-! ### Python `int(str)` -/

/-- Characters stripped by CPython `int()` before parsing. -/
def isPyWs (c : Char) : Bool :=
  c = ' ' || c = '\t' || c = '\n' || c = '\r' || c = '\x0b' || c = '\x0c'

/-- Strip leading and trailing whitespace, as CPython `int()` does. -/
def pyStripWs (s : List Char) : List Char :=
  ((s.dropWhile isPyWs).reverse.dropWhile isPyWs).reverse

/-- Digits after the first, allowing single underscores between digits
(CPython accepts `1_000`). `acc` is the value of the digits read so far. -/
def pyDigitsAux (acc : Nat) : List Char → Option Nat
  | [] => some acc
  | '_' :: c :: cs =>
    if c.isDigit then pyDigitsAux (acc * 10 + (c.toNat - 48)) cs else none
  | c :: cs =>
    if c.isDigit then pyDigitsAux (acc * 10 + (c.toNat - 48)) cs else none

/-- A non-empty decimal digit string (with optional grouping underscores). -/
def pyDigits : List Char → Option Nat
  | [] => none
  | c :: cs => if c.isDigit then pyDigitsAux (c.toNat - 48) cs else none

/-- CPython `int(s)` for base 10: surrounding whitespace, an optional
sign, then a non-empty digit string; `none` models the `ValueError`. -/
def pyInt (s : String) : Option Int :=
  match pyStripWs s.data with
  | '+' :: rest => (pyDigits rest).map (fun n => (n : Int))
  | '-' :: rest => (pyDigits rest).map (fun n => -(n : Int))
  | rest => (pyDigits rest).map (fun n => (n : Int))

/-! ### Exceptions (`exceptions.py`) and the HTTP response model -/

/-- The exceptions that can reach a tool entry point's `except Exception`
handler: the five typed `ExaError`s, the `httpx` transport errors, and
the untyped runtime errors that the code can raise. -/
inductive ExaExc where
  | exaAuthentication (message : List Char)
  | exaRateLimit (message : List Char) (retryAfter : Option Int)
  | exaValidation (message : List Char)
  | exaNotFound (message : List Char)
  | exaServer (message : List Char)
  | exaBase (message : List Char)
  | httpStatusError (status : Nat)
  | timeoutException
  | connectError
  | valueError (message : List Char)
  | attributeError (message : List Char)
  | typeError (message : List Char)
deriving DecidableEq

/-- `type(e).__name__`, for the generic fallback message. -/
def ExaExc.typeName : ExaExc → List Char
  | .exaAuthentication _ => "ExaAuthenticationError".data
  | .exaRateLimit _ _ => "ExaRateLimitError".data
  | .exaValidation _ => "ExaValidationError".data
  | .exaNotFound _ => "ExaNotFoundError".data
  | .exaServer _ => "ExaServerError".data
  | .exaBase _ => "ExaError".data
  | .httpStatusError _ => "HTTPStatusError".data
  | .timeoutException => "TimeoutException".data
  | .connectError => "ConnectError".data
  | .valueError _ => "ValueError".data
  | .attributeError _ => "AttributeError".data
  | .typeError _ => "TypeError".data

/-- `str(e)`: the message the exception was constructed with. -/
def ExaExc.strRepr : ExaExc → List Char
  | .exaAuthentication m => m
  | .exaRateLimit m _ => m
  | .exaValidation m => m
  | .exaNotFound m => m
  | .exaServer m => m
  | .exaBase m => m
  | .httpStatusError s => "HTTP ".data ++ natChars s
  | .timeoutException => []
  | .connectError => []
  | .valueError m => m
  | .attributeError m => m
  | .typeError m => m

/-- `format_error_for_llm` (`exceptions.py:55-122`): the `isinstance`
chain, in source order, ending in the generic fallback. -/
def format_error_for_llm (e : ExaExc) : List Char :=
  match e with
  | .exaAuthentication _ =>
    ("Error: Authentication failed. Please verify your EXA_API_KEY " ++
     "environment variable is set correctly. Get your key at dashboard.exa.ai").data
  | .exaRateLimit _ retryAfter =>
    "Error: Rate limit exceeded. Please wait before making more requests.".data ++
      (match retryAfter with
       | some n => if n != 0 then (" Retry after ".data) ++ intChars n ++ " seconds.".data else []
       | none => [])
  | .exaValidation m =>
    "Error: Invalid input - ".data ++ m ++ ". Please check your parameters.".data
  | .exaNotFound m =>
    "Error: Resource not found - ".data ++ m ++ ". Please verify the ID is correct.".data
  | .exaServer m =>
    ("Error: Exa API server error. This is temporary - please try again. " ++
     "Details: ").data ++ m
  | .httpStatusError status =>
    if status = 401 then
      ("Error: Invalid API key. Check your EXA_API_KEY environment variable. " ++
       "Get your key at dashboard.exa.ai").data
    else if status = 403 then
      "Error: Access forbidden. You may not have permission for this endpoint.".data
    else if status = 404 then
      "Error: Resource not found. Please check the ID or URL is correct.".data
    else if status = 429 then
      "Error: Rate limit exceeded. Please wait before making more requests.".data
    else if 500 ≤ status then
      "Error: Exa API server error (".data ++ natChars status ++ "). Please try again later.".data
    else
      "Error: API request failed with status ".data ++ natChars status ++ ".".data
  | .timeoutException =>
    ("Error: Request timed out. The Exa API took too long to respond. " ++
     "Try reducing the number of results or simplifying your query.").data
  | .connectError =>
    "Error: Could not connect to Exa API. Please check your internet connection.".data
  | e => "Error: ".data ++ e.typeName ++ " - ".data ++ e.strRepr

/-- The fields of an `httpx.Response` that `raise_for_status` reads.
`jsonBody` is the result of `response.json()` (`none` when the body is
not valid JSON, in which case the code falls back to the raw text), and
`retryAfterHeader` is `response.headers.get("Retry-After")`. -/
structure HttpResponse where
  status : Nat
  jsonBody : Option JVal
  text : String
  retryAfterHeader : Option String
deriving DecidableEq

/-- `httpx.Response.is_success`: a 2xx status. -/
def isSuccessStatus (s : Nat) : Bool := 200 ≤ s && s < 300

/-- `response.json().get("error", response.text)` under
`try/except Exception`: the `error` field of a JSON object body, the raw
text when the body is not JSON, is not an object (`.get` raises
`AttributeError`), or has no `error` field. -/
def responseDetail (r : HttpResponse) : List Char :=
  match r.jsonBody with
  | some (.jobj fs) =>
    match pyGet fs ("error") with
    | some v => pyStr v
    | none => r.text.data
  | some _ => r.text.data
  | none => r.text.data

/-- `raise_for_status` (`exceptions.py:125-160`): maps non-2xx statuses
to typed failures; the `int(retry_after)` conversion on a 429 raises an
untyped `ValueError` when the header is non-empty but not an integer. -/
def raise_for_status (r : HttpResponse) : Except ExaExc Unit :=
  if isSuccessStatus r.status then .ok ()
  else
    let detail := responseDetail r
    if r.status = 401 then
      .error (.exaAuthentication ("Authentication failed: ".data ++ detail))
    else if r.status = 404 then
      .error (.exaNotFound ("Not found: ".data ++ detail))
    else if r.status = 429 then
      match r.retryAfterHeader with
      | none => .error (.exaRateLimit ("Rate limit exceeded: ".data ++ detail) none)
      | some h =>
        if h = "" then
          .error (.exaRateLimit ("Rate limit exceeded: ".data ++ detail) none)
        else
          match pyInt h with
          | some k => .error (.exaRateLimit ("Rate limit exceeded: ".data ++ detail) (some k))
          | none =>
            .error (.valueError ("invalid literal for int() with base 10: ".data ++ pyRepr (.jstr h)))
    else if 500 ≤ r.status then
      .error (.exaServer ("Server error (".data ++ natChars r.status ++ "): ".data ++ detail))
    else
      .error (.exaBase ("API error (".data ++ natChars r.status ++ "): ".data ++ detail))

/-! ### `ContentOptions` (`models/common.py`) -/

/-- Truthiness of an `int | None` field, as in `if self.max_characters:`. -/
def optIntTruthy : Option Int → Bool
  | some n => n != 0
  | none => false

/-- `ContentOptions` (`models/common.py:54-86`): three independent
toggles with optional sub-limits. -/
structure ContentOptions where
  include_text : Bool := false
  max_characters : Option Int := none
  include_highlights : Bool := false
  num_sentences : Option Int := none
  include_summary : Bool := false
deriving DecidableEq

/-- `ContentOptions.to_api_params` (`models/common.py:88-111`): each
enabled toggle contributes a key whose value is an options object when
its sub-limit is truthy and boolean `True` otherwise; disabled toggles
contribute nothing. -/
def ContentOptions.to_api_params (c : ContentOptions) : List (String × JVal) :=
  (if c.include_text then
    let text_opts : List (String × JVal) :=
      match c.max_characters with
      | some m => if m != 0 then [("maxCharacters", .jnum m)] else []
      | none => []
    [("text", if text_opts.isEmpty then .jbool true else .jobj text_opts)]
  else []) ++
  (if c.include_highlights then
    let highlight_opts : List (String × JVal) :=
      match c.num_sentences with
      | some m => if m != 0 then [("numSentences", .jnum m)] else []
      | none => []
    [("highlights", if highlight_opts.isEmpty then .jbool true else .jobj highlight_opts)]
  else []) ++
  (if c.include_summary then [("summary", .jbool true)] else [])

/-! ### Client payload builders (`client.py`) -/

/-- An optional string field added to a payload only when truthy
(`if category: payload["category"] = category`). -/
def strEntry (k : String) : Option String → List (String × JVal)
  | some s => if s = "" then [] else [(k, .jstr s)]
  | none => []

/-- An optional string-list field added to a payload only when truthy
(`if include_domains: payload["includeDomains"] = include_domains`). -/
def strListEntry (k : String) : Option (List String) → List (String × JVal)
  | some l => if l.isEmpty then [] else [(k, .jarr (l.map .jstr))]
  | none => []

/-- A content-option argument added to a payload whenever it is not
`None`: `payload[k] = v if isinstance(v, dict) else {}` — a non-dict
value (such as `True`) is replaced by an empty options object. -/
def contentEntry (k : String) : Option JVal → List (String × JVal)
  | some v => [(k, match v with | .jobj fs => .jobj fs | _ => .jobj [])]
  | none => []

/-- The outbound `/search` payload built by `ExaClient.search`
(`client.py:119-156`), in insertion order. -/
def clientSearchPayload
    (query : String) (num_results : Int) (search_type : String) (category : Option String)
    (include_domains exclude_domains : Option (List String))
    (start_published_date end_published_date start_crawl_date end_crawl_date : Option String)
    (include_text exclude_text : Option (List String))
    (use_autoprompt : Bool) (livecrawl : Option String)
    (text highlights summary : Option JVal) : List (String × JVal) :=
  [("query", .jstr query), ("numResults", .jnum num_results), ("type", .jstr search_type),
   ("useAutoprompt", .jbool use_autoprompt)]
  ++ strEntry ("category") category
  ++ strListEntry ("includeDomains") include_domains
  ++ strListEntry ("excludeDomains") exclude_domains
  ++ strEntry ("startPublishedDate") start_published_date
  ++ strEntry ("endPublishedDate") end_published_date
  ++ strEntry ("startCrawlDate") start_crawl_date
  ++ strEntry ("endCrawlDate") end_crawl_date
  ++ strListEntry ("includeText") include_text
  ++ strListEntry ("excludeText") exclude_text
  ++ strEntry ("livecrawl") livecrawl
  ++ contentEntry ("text") text
  ++ contentEntry ("highlights") highlights
  ++ contentEntry ("summary") summary

/-- The outbound `/contents` payload built by `ExaClient.get_contents`
(`client.py:216-253`): the `ids` list is sent exactly as received. -/
def clientGetContentsPayload (ids : List String)
    (text highlights summary : Option JVal)
    (livecrawl : Option String) (subpages : Option Int) : List (String × JVal) :=
  [("ids", .jarr (ids.map .jstr))]
  ++ contentEntry ("text") text
  ++ contentEntry ("highlights") highlights
  ++ contentEntry ("summary") summary
  ++ strEntry ("livecrawl") livecrawl
  ++ (match subpages with | some n => [("subpages", .jnum n)] | none => [])

/-! ### Response truncation (`tools/search.py:99-116`, `constants.py:10`) -/

/-- `CHARACTER_LIMIT` (`constants.py:10`). -/
def CHARACTER_LIMIT : Nat := 25000

/-- `_truncate_response` (`tools/search.py:99-116`): a response within
the limit passes through; a longer one is cut to `CHARACTER_LIMIT - 200`
characters and a footer reporting the original length is appended. -/
def _truncate_response (text : List Char) : List Char :=
  if text.length ≤ CHARACTER_LIMIT then text
  else
    text.take (CHARACTER_LIMIT - 200)
      ++ "\n\n---\n[Response truncated from ".data
      ++ natChars text.length
      ++ " characters. Use more specific filters or reduce num_results.]".data

/-! ### Shared Python-semantics helpers for the formatters -/

/-- `len(v)` on a JSON-parsed value; non-sized values raise `TypeError`. -/
def pyLen : JVal → Except ExaExc Nat
  | .jstr s => .ok s.data.length
  | .jarr xs => .ok xs.length
  | .jobj fs => .ok fs.length
  | _ => .error (.typeError ("object of this type has no len()".data))

/-- Iterating a JSON-parsed value (`for x in v`): lists yield elements,
strings yield one-character strings, dicts yield their keys; other
values raise `TypeError`. -/
def pyIter : JVal → Except ExaExc (List JVal)
  | .jarr xs => .ok xs
  | .jstr s => .ok (s.data.map (fun c => .jstr c.toString))
  | .jobj fs => .ok (fs.map (fun e => JVal.jstr e.1))
  | _ => .error (.typeError ("object is not iterable".data))

/-- `v[:n]` on a JSON-parsed value: defined for lists and strings. -/
def pySliceTake (v : JVal) (n : Nat) : Except ExaExc JVal :=
  match v with
  | .jarr xs => .ok (.jarr (xs.take n))
  | .jstr s => .ok (.jstr ⟨s.data.take n⟩)
  | _ => .error (.typeError ("object is not subscriptable".data))

/-- `.get` attribute access: only dicts have it (`AttributeError` otherwise). -/
def pyAsDict : JVal → Except ExaExc (List (String × JVal))
  | .jobj fs => .ok fs
  | _ => .error (.attributeError ("object has no attribute 'get'".data))

/-- The numeric value accepted by a `:.2f` format spec: ints and bools;
other JSON values raise. -/
def pyAsNum : JVal → Except ExaExc Int
  | .jnum n => .ok n
  | .jbool b => .ok (if b then 1 else 0)
  | _ => .error (.typeError ("unsupported format string".data))

/-- `f"{n:.2f}"` for a number modelled as an integer. -/
def fixed2 (n : Int) : List Char := intChars n ++ ".00".data

/-- A line `prefix + str(value)` emitted only when the field is present
and truthy, as in `if result.get(k): lines.append(pre + result[k])`. -/
def truthyLine (r : List (String × JVal)) (k : String) (pre : List Char) : List (List Char) :=
  match pyGet r k with
  | some v => if pyTruthy v then [pre ++ pyStr v] else []
  | none => []

/-- `"\n".join(lines)`. -/
def joinLines (lines : List (List Char)) : List Char :=
  List.intercalate ("\n".data) lines

namespace SearchTool

/-- The `if result.get("score"):` block of `_format_result_markdown`
(`tools/search.py:48-49`). -/
def scoreLines (result : List (String × JVal)) : Except ExaExc (List (List Char)) :=
  match pyGet result ("score") with
  | some v =>
    if pyTruthy v then do
      let n ← pyAsNum v
      pure [("**Relevance:** ".data) ++ fixed2 n]
    else pure []
  | none => pure []

/-- The `if result.get("highlights"):` block of `_format_result_markdown`
(`tools/search.py:52-55`). -/
def highlightLines (result : List (String × JVal)) : Except ExaExc (List (List Char)) :=
  match pyGet result ("highlights") with
  | some v =>
    if pyTruthy v then do
      let hs ← pySliceTake v 3
      let items ← pyIter hs
      pure (("\n**Highlights:**".data) :: items.map (fun h => ("> ".data) ++ pyStr h))
    else pure []
  | none => pure []

/-- The `if result.get("text"):` block of `_format_result_markdown`
(`tools/search.py:62-64`): a preview capped at 500 characters with an
ellipsis appended when the text is longer. -/
def textLines (result : List (String × JVal)) : Except ExaExc (List (List Char)) :=
  match pyGet result ("text") with
  | some v =>
    if pyTruthy v then do
      let n ← pyLen v
      if 500 < n then do
        let sliced ← pySliceTake v 500
        match sliced with
        | .jstr s => pure [("\n**Content Preview:**\n".data) ++ s.data ++ ("...".data)]
        | _ => .error (.typeError ("can only concatenate str (not list) to str".data))
      else
        pure [("\n**Content Preview:**\n".data) ++ pyStr v]
    else pure []
  | none => pure []

/-- The `lines` list built by `_format_result_markdown`
(`tools/search.py:29-66`) for one search result. -/
def _format_result_lines (result : List (String × JVal)) (index : Nat) :
    Except ExaExc (List (List Char)) := do
  let score ← scoreLines result
  let highlights ← highlightLines result
  let text ← textLines result
  pure ([("### ".data) ++ natChars index ++ (". ".data)
          ++ pyStr ((pyGet result ("title")).getD (.jstr ("Untitled"))),
        ("**URL:** ".data) ++ pyStr ((pyGet result ("url")).getD (.jstr ("N/A")))]
    ++ truthyLine result ("publishedDate") ("**Published:** ".data)
    ++ truthyLine result ("author") ("**Author:** ".data)
    ++ score ++ highlights
    ++ truthyLine result ("summary") ("\n**Summary:** ".data)
    ++ text)

/-- `_format_result_markdown` (`tools/search.py:29-66`): the joined block. -/
def _format_result_markdown (result : List (String × JVal)) (index : Nat) :
    Except ExaExc (List Char) := do
  let lines ← _format_result_lines result index
  pure (joinLines lines)

/-- The per-item loop of `_format_results_markdown`: each result block
followed by a blank line; a non-dict item raises `AttributeError` at
`result.get`. -/
def formatBlocks : Nat → List JVal → Except ExaExc (List (List Char))
  | _, [] => pure []
  | i, x :: xs => do
    let fs ← pyAsDict x
    let block ← _format_result_markdown fs i
    let rest ← formatBlocks (i + 1) xs
    pure (block :: [] :: rest)

/-- `_format_results_markdown` (`tools/search.py:69-96`). -/
def _format_results_markdown (data : List (String × JVal)) (query : String) :
    Except ExaExc (List Char) :=
  let results := (pyGet data ("results")).getD (.jarr [])
  if !pyTruthy results then
    .ok (("No results found for: '".data) ++ query.data ++ ("'".data))
  else do
    let n ← pyLen results
    let head := [("# Search Results for: '".data) ++ query.data ++ ("'".data), [],
                 ("Found **".data) ++ natChars n ++ ("** results".data)]
    let auto := match pyGet data ("autopromptString") with
      | some v =>
        if pyTruthy v then [("\n*Query optimized to: \"".data) ++ pyStr v ++ ("\"*".data)]
        else []
      | none => []
    let items ← pyIter results
    let blocks ← formatBlocks 1 items
    pure (joinLines (head ++ auto ++ [[]] ++ blocks))

/-- The `if result.get("highlights"):` block of
`_format_code_results_markdown` (`tools/search.py:239-242`): code-fence
rendering. -/
def codeHighlightLines (result : List (String × JVal)) : Except ExaExc (List (List Char)) :=
  match pyGet result ("highlights") with
  | some v =>
    if pyTruthy v then do
      let hs ← pySliceTake v 3
      let items ← pyIter hs
      pure (("\n**Code Snippets:**".data)
        :: items.map (fun h => ("```\n".data) ++ pyStr h ++ ("\n```".data)))
    else pure []
  | none => pure []

/-- The `if result.get("text"):` block of `_format_code_results_markdown`
(`tools/search.py:244-247`): a preview capped at 800 characters — not
500 — with an ellipsis appended when longer. -/
def codeTextLines (result : List (String × JVal)) : Except ExaExc (List (List Char)) :=
  match pyGet result ("text") with
  | some v =>
    if pyTruthy v then do
      let n ← pyLen v
      if 800 < n then do
        let sliced ← pySliceTake v 800
        match sliced with
        | .jstr s => pure [("\n**Content:**\n".data) ++ s.data ++ ("...".data)]
        | _ => .error (.typeError ("can only concatenate str (not list) to str".data))
      else
        pure [("\n**Content:**\n".data) ++ pyStr v]
    else pure []
  | none => pure []

/-- The `lines` appended per item by `_format_code_results_markdown`
(`tools/search.py:209-251`). -/
def _format_code_result_lines (result : List (String × JVal)) (index : Nat) :
    Except ExaExc (List (List Char)) := do
  let score ← scoreLines result
  let highlights ← codeHighlightLines result
  let text ← codeTextLines result
  pure ([("### ".data) ++ natChars index ++ (". ".data)
          ++ pyStr ((pyGet result ("title")).getD (.jstr ("Untitled"))),
        ("**URL:** ".data) ++ pyStr ((pyGet result ("url")).getD (.jstr ("N/A")))]
    ++ truthyLine result ("publishedDate") ("**Updated:** ".data)
    ++ score ++ highlights ++ text)

/-- The per-item loop of `_format_code_results_markdown`: block lines are
appended directly, followed by a blank line. -/
def formatCodeBlocks : Nat → List JVal → Except ExaExc (List (List Char))
  | _, [] => pure []
  | i, x :: xs => do
    let fs ← pyAsDict x
    let lines ← _format_code_result_lines fs i
    let rest ← formatCodeBlocks (i + 1) xs
    pure (lines ++ [[]] ++ rest)

/-- `_format_code_results_markdown` (`tools/search.py:209-251`). -/
def _format_code_results_markdown (data : List (String × JVal)) (query : String) :
    Except ExaExc (List Char) :=
  let results := (pyGet data ("results")).getD (.jarr [])
  if !pyTruthy results then
    .ok (("No code results found for: '".data) ++ query.data ++ ("'".data))
  else do
    let n ← pyLen results
    let head := [("# Code Search Results: '".data) ++ query.data ++ ("'".data), [],
                 ("Found **".data) ++ natChars n ++ ("** code-related results".data), []]
    let items ← pyIter results
    let blocks ← formatCodeBlocks 1 items
    pure (joinLines (head ++ blocks))

end SearchTool

namespace SimilarTool

/-- The `if result.get("score"):` block of `_format_result_markdown`
(`tools/similar.py:41-42`): the label is `Similarity`. -/
def scoreLines (result : List (String × JVal)) : Except ExaExc (List (List Char)) :=
  match pyGet result ("score") with
  | some v =>
    if pyTruthy v then do
      let n ← pyAsNum v
      pure [("**Similarity:** ".data) ++ fixed2 n]
    else pure []
  | none => pure []

/-- The `if result.get("highlights"):` block of `_format_result_markdown`
(`tools/similar.py:45-48`). -/
def highlightLines (result : List (String × JVal)) : Except ExaExc (List (List Char)) :=
  match pyGet result ("highlights") with
  | some v =>
    if pyTruthy v then do
      let hs ← pySliceTake v 3
      let items ← pyIter hs
      pure (("\n**Highlights:**".data) :: items.map (fun h => ("> ".data) ++ pyStr h))
    else pure []
  | none => pure []

/-- The `if result.get("text"):` block of `_format_result_markdown`
(`tools/similar.py:55-57`): a preview capped at 500 characters with an
ellipsis appended when longer. -/
def textLines (result : List (String × JVal)) : Except ExaExc (List (List Char)) :=
  match pyGet result ("text") with
  | some v =>
    if pyTruthy v then do
      let n ← pyLen v
      if 500 < n then do
        let sliced ← pySliceTake v 500
        match sliced with
        | .jstr s => pure [("\n**Content Preview:**\n".data) ++ s.data ++ ("...".data)]
        | _ => .error (.typeError ("can only concatenate str (not list) to str".data))
      else
        pure [("\n**Content Preview:**\n".data) ++ pyStr v]
    else pure []
  | none => pure []

/-- The `lines` list built by `_format_result_markdown`
(`tools/similar.py:23-59`) for one similar-page result: identical to the
search formatter except the score label is `Similarity`. -/
def _format_result_lines (result : List (String × JVal)) (index : Nat) :
    Except ExaExc (List (List Char)) := do
  let score ← scoreLines result
  let highlights ← highlightLines result
  let text ← textLines result
  pure ([("### ".data) ++ natChars index ++ (". ".data)
          ++ pyStr ((pyGet result ("title")).getD (.jstr ("Untitled"))),
        ("**URL:** ".data) ++ pyStr ((pyGet result ("url")).getD (.jstr ("N/A")))]
    ++ truthyLine result ("publishedDate") ("**Published:** ".data)
    ++ truthyLine result ("author") ("**Author:** ".data)
    ++ score ++ highlights
    ++ truthyLine result ("summary") ("\n**Summary:** ".data)
    ++ text)

end SimilarTool

/-! ### Enums (`constants.py`) and input models -/

/-- `ResponseFormat` (`constants.py`). -/
inductive ResponseFormat where
  | markdown
  | json
deriving DecidableEq

/-- `SearchType` (`constants.py`). -/
inductive SearchType where
  | auto
  | neural
  | keyword
deriving DecidableEq

/-- The wire value of a `SearchType` member. -/
def SearchType.value : SearchType → String
  | .auto => "auto"
  | .neural => "neural"
  | .keyword => "keyword"

/-- `Category` (`constants.py`). -/
inductive Category where
  | company
  | news
  | researchPaper
  | github
  | tweet
  | pdf
  | personalSite
  | linkedinProfile
deriving DecidableEq

/-- The wire value of a `Category` member. -/
def Category.value : Category → String
  | .company => "company"
  | .news => "news"
  | .researchPaper => "research paper"
  | .github => "github"
  | .tweet => "tweet"
  | .pdf => "pdf"
  | .personalSite => "personal site"
  | .linkedinProfile => "linkedin profile"

/-- `LivecrawlMode` (`constants.py`). -/
inductive LivecrawlMode where
  | fallback
  | preferred
  | always
deriving DecidableEq

/-- The wire value of a `LivecrawlMode` member. -/
def LivecrawlMode.value : LivecrawlMode → String
  | .fallback => "fallback"
  | .preferred => "preferred"
  | .always => "always"

/-- `MAX_NUM_RESULTS` (`constants.py:12`). -/
def MAX_NUM_RESULTS : Int := 100

/-- `DEFAULT_NUM_RESULTS` (`constants.py:11`). -/
def DEFAULT_NUM_RESULTS : Int := 10

/-- The pydantic range check of `SearchInput.num_results`
(`models/search.py:42-47`, `Field(ge=1, le=MAX_NUM_RESULTS)`): the value
is accepted unchanged iff it lies in the inclusive range; out-of-range
values fail validation and are never clamped. -/
def validate_num_results (n : Int) : Except (List Char) Int :=
  if n < 1 then .error ("Input should be greater than or equal to 1".data)
  else if MAX_NUM_RESULTS < n then .error ("Input should be less than or equal to 100".data)
  else .ok n

/-- `SearchInput` (`models/search.py:18-103`), with fields at their
annotated types. (Pydantic's `use_enum_values=True` would actually store
raw strings for validated enum fields — see `BaseInput` in
`models/common.py` — but no claim under study depends on that.) -/
structure SearchInput where
  response_format : ResponseFormat := .markdown
  query : String
  num_results : Int := DEFAULT_NUM_RESULTS
  search_type : SearchType := .auto
  category : Option Category := none
  include_domains : Option (List String) := none
  exclude_domains : Option (List String) := none
  start_published_date : Option String := none
  end_published_date : Option String := none
  start_crawl_date : Option String := none
  end_crawl_date : Option String := none
  include_text : Option (List String) := none
  exclude_text : Option (List String) := none
  use_autoprompt : Bool := true
  livecrawl : Option LivecrawlMode := none
  content : Option ContentOptions := none

/-! ### The search tool entry point (`tools/search.py:171-206`) -/

/-- The `try`-block body of `exa_search`: build content options, call the
client (modelled by the `remote` oracle, a function from the outbound
payload to the parsed response or a raised failure), format, truncate. -/
def exaSearchBody (params : SearchInput)
    (remote : List (String × JVal) → Except ExaExc (List (String × JVal))) :
    Except ExaExc (List Char) := do
  let content_opts := match params.content with
    | some c => c.to_api_params
    | none => []
  let payload := clientSearchPayload params.query params.num_results
    params.search_type.value (params.category.map Category.value)
    params.include_domains params.exclude_domains
    params.start_published_date params.end_published_date
    params.start_crawl_date params.end_crawl_date
    params.include_text params.exclude_text
    params.use_autoprompt (params.livecrawl.map LivecrawlMode.value)
    (pyGet content_opts ("text")) (pyGet content_opts ("highlights"))
    (pyGet content_opts ("summary"))
  let data ← remote payload
  let response ← match params.response_format with
    | .json => pure (jdumpsTop data)
    | .markdown => SearchTool._format_results_markdown data params.query
  pure (_truncate_response response)

/-- `exa_search` (`tools/search.py:171-206`): the body under
`try/except Exception`, every failure converted by
`format_error_for_llm`. -/
def exa_search (params : SearchInput)
    (remote : List (String × JVal) → Except ExaExc (List (String × JVal))) : List Char :=
  match exaSearchBody params remote with
  | .ok s => s
  | .error e => format_error_for_llm e

/-! ### Research models and tools (`models/research.py`, `tools/research.py`) -/

/-- `GetResearchInput` (`models/research.py:58-70`): its only fields are
`task_id` and `response_format`. -/
structure GetResearchInput where
  task_id : String
  response_format : ResponseFormat := .markdown
deriving DecidableEq

/-- Python attribute access on a `GetResearchInput` instance: any name
other than its declared fields raises `AttributeError`. -/
def GetResearchInput.pyAttrStr (p : GetResearchInput) (name : String) :
    Except ExaExc String :=
  if name = "task_id" then .ok p.task_id
  else .error (.attributeError
    (("'GetResearchInput' object has no attribute '".data) ++ name.data ++ ("'".data)))

namespace ResearchTool

/-- `_format_result_markdown` (`tools/research.py:61-98`): header with
id/status/instructions, then the report when `result` (or `output`) is
truthy, else a progress note keyed on the status value. -/
def _format_result_markdown (data : List (String × JVal)) : List Char :=
  let research_id := pyStr ((pyGet data ("researchId")).getD
    ((pyGet data ("id")).getD (.jstr ("unknown"))))
  let statusVal := (pyGet data ("status")).getD (.jstr ("unknown"))
  let instructions := pyStr ((pyGet data ("instructions")).getD (.jstr ("N/A")))
  let result := (pyGet data ("result")).getD ((pyGet data ("output")).getD (.jstr ("")))
  let head := [("# Research Results: ".data) ++ research_id, [],
               ("**Status:** ".data) ++ pyStr statusVal,
               ("**Instructions:** ".data) ++ instructions, []]
  let tail :=
    if pyTruthy result then
      [("## Report".data), []] ++
      [match result with
       | .jobj fs => jdumps 0 (.jobj fs)
       | v => pyStr v]
    else if statusVal = .jstr ("running") then
      [("*Research is still in progress. Check back later.*".data)]
    else if statusVal = .jstr ("pending") then
      [("*Research task is queued and will start soon.*".data)]
    else
      match pyGet data ("error") with
      | some v => if pyTruthy v then [("**Error:** ".data) ++ pyStr v] else []
      | none => []
  joinLines (head ++ tail)

/-- `_truncate_response` (`tools/research.py:124-134`): the research
variant, with its own remediation hint. -/
def _truncate_response (text : List Char) : List Char :=
  if text.length ≤ CHARACTER_LIMIT then text
  else
    text.take (CHARACTER_LIMIT - 200)
      ++ ("\n\n---\n[Response truncated from ".data)
      ++ natChars text.length
      ++ (" characters. Research results may be large; consider using filters.]".data)

end ResearchTool

/-- The `try`-block body of `exa_research_check`
(`tools/research.py:218-256`): it first evaluates `params.research_id`,
an attribute `GetResearchInput` does not define, so `AttributeError` is
raised before the remote call `research_get` can happen. -/
def exaResearchCheckBody (params : GetResearchInput)
    (research_get : String → Except ExaExc (List (String × JVal))) :
    Except ExaExc (List Char) := do
  let rid ← GetResearchInput.pyAttrStr params ("research_id")
  let data ← research_get rid
  let response := match params.response_format with
    | .json => jdumpsTop data
    | .markdown => ResearchTool._format_result_markdown data
  pure (ResearchTool._truncate_response response)

/-- `exa_research_check` (`tools/research.py:218-256`): the body under
`try/except Exception`. -/
def exa_research_check (params : GetResearchInput)
    (research_get : String → Except ExaExc (List (String × JVal))) : List Char :=
  match exaResearchCheckBody params research_get with
  | .ok s => s
  | .error e => format_error_for_llm e

/-! ### Get-contents models and tool (`models/contents.py`, `tools/contents.py`) -/

/-- Modelled third-party behavior: `pydantic.HttpUrl(url)` accepts an
absolute http/https URL with a non-empty authority and raises a
validation error otherwise. (Only ever called on strings that start with
`http://` or `https://`.) -/
def httpUrlOk (url : String) : Bool :=
  ((("http://".data).isPrefixOf url.data) && 7 < url.data.length)
  || ((("https://".data).isPrefixOf url.data) && 8 < url.data.length)

/-- One step of `GetContentsInput.validate_urls`
(`models/contents.py:51-70`): strip, skip empties, prefix `https://`
when the entry lacks a scheme but contains a dot, and check scheme-ful
entries with `HttpUrl`. -/
def validateUrlsGo : List String → Except (List Char) (List String)
  | [] => .ok []
  | url :: rest =>
    let u : String := ⟨pyStripWs url.data⟩
    if u.data.isEmpty then validateUrlsGo rest
    else
      let u2 : String :=
        if !((("http://".data).isPrefixOf u.data) || (("https://".data).isPrefixOf u.data))
            && u.data.contains '.'
        then ⟨("https://".data) ++ u.data⟩ else u
      if (("http://".data).isPrefixOf u2.data) || (("https://".data).isPrefixOf u2.data) then
        if httpUrlOk u2 then do
          let r ← validateUrlsGo rest
          .ok (u2 :: r)
        else .error ("Input is not a valid URL".data)
      else do
        let r ← validateUrlsGo rest
        .ok (u2 :: r)

/-- `GetContentsInput.validate_urls` (`models/contents.py:51-70`): the
`mode="before"` validator; an all-empty input raises. -/
def validate_urls (v : List String) : Except (List Char) (List String) := do
  let validated ← validateUrlsGo v
  if validated.isEmpty then .error ("At least one valid URL is required".data)
  else .ok validated

/-- The full pydantic pipeline for `GetContentsInput.urls`: the
`before`-validator, then the declared `min_length=1` / `max_length=100`
constraints (`models/contents.py:30-35`). -/
def mkGetContentsUrls (v : List String) : Except (List Char) (List String) := do
  let validated ← validate_urls v
  if validated.length < 1 then .error ("List should have at least 1 item".data)
  else if 100 < validated.length then .error ("List should have at most 100 items".data)
  else .ok validated

/-- The outbound payload produced by `exa_get_contents`
(`tools/contents.py:110-166`): the tool's signature takes a plain
`urls: list[str]` — `GetContentsInput` and its validator are never
applied — and the raw list is forwarded to `ExaClient.get_contents` as
`ids`. -/
def exa_get_contents_payload (urls : List String) (content : Option ContentOptions)
    (livecrawl : Option String) (subpages : Option Int) : List (String × JVal) :=
  let content_opts : List (String × JVal) :=
    match content with
    | some c =>
      if c.to_api_params.isEmpty then [(("text" : String), JVal.jbool true)]
      else c.to_api_params
    | none => [(("text" : String), JVal.jbool true)]
  clientGetContentsPayload urls
    (pyGet content_opts ("text")) (pyGet content_opts ("highlights"))
    (pyGet content_opts ("summary")) livecrawl subpages

deriving instance DecidableEq for Except

/-- A remote oracle that always raises, for exercising the tool entry
points' failure path. -/
def constErrRemote (e : ExaExc) :
    List (String × JVal) → Except ExaExc (List (String × JVal)) :=
  fun _ => .error e

/-- A concrete default-valued search input. -/
def searchParams0 : SearchInput :=
  { query := "AI safety" }

/-- A remote research response in status `running` with no `result` (or
`output`) field, as in the repo's own `test_running_result` fixture. -/
def runningTaskData : List (String × JVal) :=
  [(("researchId" : String), .jstr ("task_xyz")),
   (("status" : String), .jstr ("running")),
   (("instructions" : String), .jstr ("Ongoing research")),
   (("model" : String), .jstr ("exa-research"))]

/-- A research-get oracle returning `runningTaskData` for any id. -/
def runningRemote : String → Except ExaExc (List (String × JVal)) :=
  fun _ => .ok runningTaskData

/-- The concrete 501-character text used against the code-search cap. -/
def longText501 : String := ⟨List.replicate 501 'a'⟩

/-- The concrete truncation input: one character over the limit. -/
def c2WitnessInput : List Char := List.replicate 25001 'a'

/-- The error detail as the specification words it: "parsed from the
response body's `error` field when the body is JSON with that field,
otherwise the raw response text" (refinement counterpart of
`responseDetail`). -/
def specDetail (r : HttpResponse) : List Char :=
  match r.jsonBody with
  | some (.jobj fs) =>
    match pyGet fs ("error") with
    | some v => pyStr v
    | none => r.text.data
  | some _ => r.text.data
  | none => r.text.data

/-- Whether an exception is one of the five typed gateway failures of
the specification's taxonomy (`exceptions.py:12-52`). -/
def isTypedGatewayFailure : ExaExc → Bool
  | .exaAuthentication _ => true
  | .exaRateLimit _ _ => true
  | .exaNotFound _ => true
  | .exaServer _ => true
  | .exaBase _ => true
  | _ => false

/-! ## Helper lemmas -/

/-- A prefix of `a` is a prefix of `a ++ b`. -/
theorem prefix_trans_append {p a : List Char} (b : List Char) (h : p <+: a) :
    p <+: a ++ b :=
  h.trans (List.prefix_append a b)

/-- Lists differing on an initial segment are different. -/
theorem ne_of_take {p q : List Char} (k : Nat) (h : p.take k ≠ q.take k) : p ≠ q :=
  fun e => h (by rw [e])

/-- Lookup skips a prefix that does not bind the key. -/
theorem pyGet_append_none {l₁ : List (String × JVal)} (l₂ : List (String × JVal))
    (k : String) (h : pyGet l₁ k = none) : pyGet (l₁ ++ l₂) k = pyGet l₂ k := by
  simp only [pyGet, List.find?_append, Option.map_eq_none'] at h ⊢
  rw [h]
  simp [Option.orElse]

/-- Lookup resolved in a prefix ignores the suffix. -/
theorem pyGet_append_some {l₁ : List (String × JVal)} (l₂ : List (String × JVal))
    (k : String) {v : JVal} (h : pyGet l₁ k = some v) : pyGet (l₁ ++ l₂) k = some v := by
  simp only [pyGet, List.find?_append] at h ⊢
  rcases ho : l₁.find? (fun e => decide (e.1 = k)) with _ | w
  · rw [ho] at h; simp at h
  · rw [ho] at h
    simp only [Option.map_some'] at h
    simp [Option.orElse, ho, h]

/-- A `strEntry` for a different key never binds `k`. -/
theorem pyGet_strEntry_ne (k' : String) (o : Option String) (k : String) (h : k' ≠ k) :
    pyGet (strEntry k' o) k = none := by
  cases o with
  | none => simp [strEntry, pyGet]
  | some s =>
    by_cases hs : s = ""
    · simp [strEntry, hs, pyGet]
    · simp [strEntry, hs, pyGet, h]

/-- A `strListEntry` for a different key never binds `k`. -/
theorem pyGet_strListEntry_ne (k' : String) (o : Option (List String)) (k : String)
    (h : k' ≠ k) : pyGet (strListEntry k' o) k = none := by
  cases o with
  | none => simp [strListEntry, pyGet]
  | some l =>
    by_cases hl : l.isEmpty
    · simp [strListEntry, hl, pyGet]
    · simp [strListEntry, hl, pyGet, h]

/-- A `contentEntry` for a different key never binds `k`. -/
theorem pyGet_contentEntry_ne (k' : String) (o : Option JVal) (k : String) (h : k' ≠ k) :
    pyGet (contentEntry k' o) k = none := by
  cases o with
  | none => simp [contentEntry, pyGet]
  | some v => simp [contentEntry, pyGet, h]

/-- A `contentEntry` for key `k` binds `k` to the dict-or-empty value. -/
theorem pyGet_contentEntry_self (k : String) (v : JVal) :
    pyGet (contentEntry k (some v)) k =
      some (match v with | .jobj fs => .jobj fs | _ => .jobj []) := by
  simp [contentEntry, pyGet]

/-! ## C9 — `num_results` bounds -/

/-- C9: search input validation accepts `num_results = 100`, rejects 101
and 0 as validation failures, and any accepted value is returned
unchanged (inclusive bounds, no clamping). -/
theorem c9_num_results_bounds :
    validate_num_results 100 = .ok 100 ∧
    validate_num_results 101 = .error ("Input should be less than or equal to 100".data) ∧
    validate_num_results 0 = .error ("Input should be greater than or equal to 1".data) ∧
    ∀ n m : Int, validate_num_results n = .ok m → m = n ∧ 1 ≤ n ∧ n ≤ 100 := by
  refine ⟨by decide, by decide, by decide, ?_⟩
  intro n m h
  simp only [validate_num_results, MAX_NUM_RESULTS] at h
  split at h
  · exact absurd h (by simp)
  · split at h
    · exact absurd h (by simp)
    · simp only [Except.ok.injEq] at h
      omega

/-- Witness for C9: the universally quantified part applied at `n = 50`. -/
theorem c9_num_results_bounds_witness :
    validate_num_results 50 = .ok 50 ∧ ((50 : Int) = 50 ∧ 1 ≤ (50 : Int) ∧ (50 : Int) ≤ 100) :=
  ⟨by decide, c9_num_results_bounds.2.2.2 50 50 (by decide)⟩

/-! ## C10 — malformed `Retry-After` header -/

/-- C10: on a 429 response, a present, non-empty `Retry-After` header
that does not parse as a decimal integer makes the status-mapping
function raise an untyped conversion error (`ValueError` from `int()`)
instead of the typed rate-limit failure; the typed rate-limit failure is
raised exactly when the header is absent, empty, or an integer string. -/
theorem c10_retry_after_untyped_error (r : HttpResponse) (h : r.status = 429) :
    (∀ hdr, r.retryAfterHeader = some hdr → hdr ≠ "" → pyInt hdr = none →
      raise_for_status r = .error (.valueError
        (("invalid literal for int() with base 10: ".data) ++ pyRepr (.jstr hdr)))) ∧
    ((∃ d ra, raise_for_status r = .error (.exaRateLimit d ra)) ↔
      (r.retryAfterHeader = none ∨ r.retryAfterHeader = some "" ∨
        ∃ hdr k, r.retryAfterHeader = some hdr ∧ pyInt hdr = some k)) := by
  obtain ⟨st, jb, tx, ra⟩ := r
  simp only at h
  subst h
  constructor
  · intro hdr hra hne hparse
    simp only at hra
    subst hra
    simp [raise_for_status, isSuccessStatus, hne, hparse]
  · simp only [raise_for_status, isSuccessStatus]
    norm_num
    cases ra with
    | none => simp
    | some hdr =>
      by_cases hne : hdr = ""
      · simp [hne]
      · rcases hp : pyInt hdr with _ | k
        · simp [hne, hp]
        · simp [hne, hp]

/-- Witness for C10: a 429 response with `Retry-After: soon` raises the
`ValueError`, and one with `Retry-After: 30` raises the typed failure. -/
theorem c10_retry_after_untyped_error_witness :
    raise_for_status ⟨429, some (.jobj [(("error" : String), .jstr ("slow down"))]),
        "slow down", some "soon"⟩ =
      .error (.valueError
        (("invalid literal for int() with base 10: ".data) ++ pyRepr (.jstr ("soon")))) :=
  (c10_retry_after_untyped_error _ rfl).1 "soon" rfl (by decide) (by decide)

/-! ## C2 — the truncation law -/

/-- C2: for an assembled response `s` within the 25000-character budget,
`_truncate_response` is the identity; beyond the budget it cuts to the
first 24800 characters, stays within the budget, and appends a footer
marker reporting the original length. The hypothesis `s.length < 10 ^ 19`
reflects that CPython string lengths are bounded by
`sys.maxsize < 10 ^ 19`. -/
theorem c2_truncation_law (s : List Char) (hb : s.length < 10 ^ 19) :
    (s.length ≤ 25000 → _truncate_response s = s) ∧
    (25000 < s.length →
      (_truncate_response s).length ≤ 25000 ∧
      (_truncate_response s).take 24800 = s.take 24800 ∧
      (("[Response truncated from ".data) ++ natChars s.length ++ (" characters.".data)) <:+:
        _truncate_response s) := by
  constructor
  · intro hle
    simp [_truncate_response, CHARACTER_LIMIT, hle]
  · intro hgt
    have hdig : (natChars s.length).length ≤ 19 :=
      Nat.repr_length s.length 19 (by norm_num) hb
    have hout : _truncate_response s =
        s.take 24800 ++ ("\n\n---\n[Response truncated from ".data)
          ++ natChars s.length
          ++ (" characters. Use more specific filters or reduce num_results.]".data) := by
      simp only [_truncate_response, CHARACTER_LIMIT]
      rw [if_neg (by omega)]
    have htk : (s.take 24800).length = 24800 := by
      rw [List.length_take]; omega
    refine ⟨?_, ?_, ?_⟩
    · have h1 : (("\n\n---\n[Response truncated from ".data : List Char)).length = 31 := by
        decide
      have h2 : (((" characters. Use more specific filters or reduce num_results.]".data)
          : List Char)).length = 62 := by decide
      rw [hout]
      simp only [List.length_append, htk, h1, h2]
      omega
    · rw [hout, List.append_assoc, List.append_assoc,
        List.take_append_of_le_length (by omega), List.take_take]
      simp
    · have hA : ("\n\n---\n[Response truncated from ".data : List Char) =
          ("\n\n---\n".data) ++ ("[Response truncated from ".data) := by decide
      have hB : ((" characters. Use more specific filters or reduce num_results.]".data)
          : List Char) =
          (" characters.".data) ++ (" Use more specific filters or reduce num_results.]".data) := by
        decide
      refine ⟨s.take 24800 ++ ("\n\n---\n".data),
        (" Use more specific filters or reduce num_results.]".data), ?_⟩
      rw [hout, hA, hB]
      simp [List.append_assoc]

/-- Witness for C2: the truncation law applied to a 25001-character
string. -/
theorem c2_truncation_law_witness :
    c2WitnessInput.length < 10 ^ 19 ∧
    ((c2WitnessInput.length ≤ 25000 → _truncate_response c2WitnessInput = c2WitnessInput) ∧
     (25000 < c2WitnessInput.length →
       (_truncate_response c2WitnessInput).length ≤ 25000 ∧
       (_truncate_response c2WitnessInput).take 24800 = c2WitnessInput.take 24800 ∧
       (("[Response truncated from ".data) ++ natChars c2WitnessInput.length
         ++ (" characters.".data)) <:+: _truncate_response c2WitnessInput)) :=
  ⟨by simp only [c2WitnessInput, List.length_replicate]; norm_num,
   c2_truncation_law c2WitnessInput
     (by simp only [c2WitnessInput, List.length_replicate]; norm_num)⟩

/-! ## C3 — failures never cross the tool boundary -/

/-- C3: for every input and every failure raised inside the
`exa_search` entry point's `try` block (validation, the five typed
gateway failures, transport failures, or any other exception), the tool
returns `format_error_for_llm` of the failure — an ordinary string that
starts with `Error` — and, the function being total, no exception
propagates. -/
theorem c3_tool_failures_become_strings (params : SearchInput)
    (remote : List (String × JVal) → Except ExaExc (List (String × JVal))) :
    (∀ e, exaSearchBody params remote = .error e →
       exa_search params remote = format_error_for_llm e) ∧
    (∀ e, exa_search params (constErrRemote e) = format_error_for_llm e) ∧
    (∀ e, ("Error".data) <+: format_error_for_llm e) := by
  refine ⟨?_, ?_, ?_⟩
  · intro e h
    simp [exa_search, h]
  · intro e
    have hb : exaSearchBody params (constErrRemote e) = .error e := rfl
    simp [exa_search, hb]
  · intro e
    cases e <;>
      simp only [format_error_for_llm, ExaExc.typeName, ExaExc.strRepr] <;>
      first
        | decide
        | (apply prefix_trans_append; decide)
        | (apply prefix_trans_append; apply prefix_trans_append; decide)
        | (apply prefix_trans_append; apply prefix_trans_append;
            apply prefix_trans_append; decide)
        | (split_ifs <;>
            first
              | decide
              | (apply prefix_trans_append; decide)
              | (apply prefix_trans_append; apply prefix_trans_append; decide))

/-- Witness for C3: a connection failure surfaces as the formatted
string. -/
theorem c3_tool_failures_become_strings_witness :
    exa_search searchParams0 (constErrRemote .connectError) =
      format_error_for_llm .connectError :=
  (c3_tool_failures_become_strings searchParams0 (constErrRemote .connectError)).1
    .connectError rfl

/-- The source's detail computation coincides with the specification's
wording of it. -/
theorem responseDetail_eq_specDetail (r : HttpResponse) : responseDetail r = specDetail r := rfl

/-! ## C4 — the status-to-failure mapping -/

/-- C4 counterexample: a 429 response whose `Retry-After` header is
`soon` makes `raise_for_status` raise an untyped `ValueError`, not one
of the five typed failures the claim promises for every non-2xx
response. -/
theorem c4_counterexample :
    (match raise_for_status ⟨429, some (.jobj [(("error" : String), .jstr ("slow down"))]),
        "slow down", some "soon"⟩ with
     | .error e => isTypedGatewayFailure e
     | .ok _ => true) = false := by decide

/-- C4 (amended): for every 2xx response `raise_for_status` raises
nothing; for every non-2xx response it raises per the status table —
401 authentication, 404 not-found, 429 rate-limit (retry-after parsed
from the header when present, non-empty and integral; `none` when the
header is absent or empty; an untyped conversion error when the header
is present, non-empty and non-integral), ≥500 server error, and the
catch-all API error otherwise — always carrying the detail exactly as
the spec words it (`specDetail`). -/
theorem c4_status_mapping (r : HttpResponse) :
    responseDetail r = specDetail r ∧
    (isSuccessStatus r.status = true → raise_for_status r = .ok ()) ∧
    (isSuccessStatus r.status = false →
      (r.status = 401 → raise_for_status r =
        .error (.exaAuthentication (("Authentication failed: ".data) ++ specDetail r))) ∧
      (r.status = 404 → raise_for_status r =
        .error (.exaNotFound (("Not found: ".data) ++ specDetail r))) ∧
      (r.status = 429 →
        ((r.retryAfterHeader = none ∨ r.retryAfterHeader = some "") →
          raise_for_status r =
            .error (.exaRateLimit (("Rate limit exceeded: ".data) ++ specDetail r) none)) ∧
        (∀ hdr k, r.retryAfterHeader = some hdr → hdr ≠ "" → pyInt hdr = some k →
          raise_for_status r =
            .error (.exaRateLimit (("Rate limit exceeded: ".data) ++ specDetail r) (some k))) ∧
        (∀ hdr, r.retryAfterHeader = some hdr → hdr ≠ "" → pyInt hdr = none →
          raise_for_status r =
            .error (.valueError
              (("invalid literal for int() with base 10: ".data) ++ pyRepr (.jstr hdr))))) ∧
      (r.status ≠ 401 → r.status ≠ 404 → r.status ≠ 429 → 500 ≤ r.status →
        raise_for_status r =
          .error (.exaServer
            (("Server error (".data) ++ natChars r.status ++ ("): ".data) ++ specDetail r))) ∧
      (r.status ≠ 401 → r.status ≠ 404 → r.status ≠ 429 → r.status < 500 →
        raise_for_status r =
          .error (.exaBase
            (("API error (".data) ++ natChars r.status ++ ("): ".data) ++ specDetail r)))) := by
  obtain ⟨st, jb, tx, ra⟩ := r
  refine ⟨rfl, ?_, ?_⟩
  · intro hs
    simp [raise_for_status, hs]
  · intro hs
    refine ⟨?_, ?_, ?_, ?_, ?_⟩
    · intro h401
      simp only at h401
      subst h401
      simp [raise_for_status, responseDetail_eq_specDetail, isSuccessStatus]
    · intro h404
      simp only at h404
      subst h404
      simp [raise_for_status, responseDetail_eq_specDetail, isSuccessStatus]
    · intro h429
      simp only at h429
      subst h429
      refine ⟨?_, ?_, ?_⟩
      · rintro (hra | hra) <;> simp only at hra <;> subst hra <;>
          simp [raise_for_status, responseDetail_eq_specDetail, isSuccessStatus]
      · intro hdr k hra hne hp
        simp only at hra
        subst hra
        simp [raise_for_status, responseDetail_eq_specDetail, isSuccessStatus, hne, hp]
      · intro hdr hra hne hp
        simp only at hra
        subst hra
        simp [raise_for_status, responseDetail_eq_specDetail, isSuccessStatus, hne, hp]
    · intro h1 h2 h3 h5
      simp only at h1 h2 h3 h5 ⊢
      simp only [raise_for_status, isSuccessStatus] at hs ⊢
      rw [if_neg (by simpa using hs), if_neg h1, if_neg h2, if_neg h3, if_pos h5,
        responseDetail_eq_specDetail]
    · intro h1 h2 h3 h5
      simp only at h1 h2 h3 h5 ⊢
      simp only [raise_for_status, isSuccessStatus] at hs ⊢
      rw [if_neg (by simpa using hs), if_neg h1, if_neg h2, if_neg h3, if_neg (by omega),
        responseDetail_eq_specDetail]

/-- Witness for C4: the mapping applied to a concrete 401 response. -/
theorem c4_status_mapping_witness :
    isSuccessStatus 401 = false ∧
    raise_for_status ⟨401, some (.jobj [(("error" : String), .jstr ("bad key"))]), "raw", none⟩ =
      .error (.exaAuthentication (("Authentication failed: ".data) ++
        specDetail ⟨401, some (.jobj [(("error" : String), .jstr ("bad key"))]), "raw", none⟩)) :=
  ⟨by decide, ((c4_status_mapping _).2.2 (by decide)).1 rfl⟩

/-- The `text` key of `to_api_params`: present iff the toggle is on;
boolean `True` without a truthy sub-limit, an options object with it. -/
theorem pyGet_to_api_params_text (c : ContentOptions) :
    pyGet c.to_api_params ("text") =
      (if c.include_text then
        some (match c.max_characters with
          | some m => if m != 0 then .jobj [(("maxCharacters" : String), .jnum m)] else .jbool true
          | none => .jbool true)
      else none) := by
  obtain ⟨it, mc, ih, ns, isum⟩ := c
  cases it <;> cases ih <;> cases isum <;> rcases mc with _ | m <;> rcases ns with _ | k <;>
    simp [ContentOptions.to_api_params, pyGet] <;> split_ifs <;> simp [pyGet]

/-- The `highlights` key of `to_api_params`. -/
theorem pyGet_to_api_params_highlights (c : ContentOptions) :
    pyGet c.to_api_params ("highlights") =
      (if c.include_highlights then
        some (match c.num_sentences with
          | some m => if m != 0 then .jobj [(("numSentences" : String), .jnum m)] else .jbool true
          | none => .jbool true)
      else none) := by
  obtain ⟨it, mc, ih, ns, isum⟩ := c
  cases it <;> cases ih <;> cases isum <;> rcases mc with _ | m <;> rcases ns with _ | k <;>
    simp [ContentOptions.to_api_params, pyGet] <;> split_ifs <;> simp [pyGet]

/-- The `summary` key of `to_api_params`: boolean `True` iff enabled. -/
theorem pyGet_to_api_params_summary (c : ContentOptions) :
    pyGet c.to_api_params ("summary") =
      (if c.include_summary then some (.jbool true) else none) := by
  obtain ⟨it, mc, ih, ns, isum⟩ := c
  cases it <;> cases ih <;> cases isum <;> rcases mc with _ | m <;> rcases ns with _ | k <;>
    simp [ContentOptions.to_api_params, pyGet] <;> split_ifs <;> simp [pyGet]

/-- The `text` key of the outbound `/search` payload: the non-`None`
content argument converted by `v if isinstance(v, dict) else {}`. -/
theorem pyGet_search_payload_text
    (q : String) (nr : Int) (st : String) (cat : Option String)
    (incd excd : Option (List String)) (spd epd scd ecd : Option String)
    (itx etx : Option (List String)) (ua : Bool) (lc : Option String)
    (t h s : Option JVal) :
    pyGet (clientSearchPayload q nr st cat incd excd spd epd scd ecd itx etx ua lc t h s)
        ("text") =
      t.map (fun v => match v with | .jobj fs => .jobj fs | _ => .jobj []) := by
  simp only [clientSearchPayload, List.append_assoc]
  rw [pyGet_append_none _ _ (by simp [pyGet]),
    pyGet_append_none _ _ (pyGet_strEntry_ne _ _ _ (by decide)),
    pyGet_append_none _ _ (pyGet_strListEntry_ne _ _ _ (by decide)),
    pyGet_append_none _ _ (pyGet_strListEntry_ne _ _ _ (by decide)),
    pyGet_append_none _ _ (pyGet_strEntry_ne _ _ _ (by decide)),
    pyGet_append_none _ _ (pyGet_strEntry_ne _ _ _ (by decide)),
    pyGet_append_none _ _ (pyGet_strEntry_ne _ _ _ (by decide)),
    pyGet_append_none _ _ (pyGet_strEntry_ne _ _ _ (by decide)),
    pyGet_append_none _ _ (pyGet_strListEntry_ne _ _ _ (by decide)),
    pyGet_append_none _ _ (pyGet_strListEntry_ne _ _ _ (by decide)),
    pyGet_append_none _ _ (pyGet_strEntry_ne _ _ _ (by decide))]
  cases t with
  | none =>
    rw [pyGet_append_none _ _ (by simp [contentEntry, pyGet]),
      pyGet_append_none _ _ (pyGet_contentEntry_ne _ _ _ (by decide)),
      pyGet_contentEntry_ne _ _ _ (by decide)]
    rfl
  | some v =>
    rw [pyGet_append_some _ _ (pyGet_contentEntry_self _ v)]
    rfl

/-- The `highlights` key of the outbound `/search` payload. -/
theorem pyGet_search_payload_highlights
    (q : String) (nr : Int) (st : String) (cat : Option String)
    (incd excd : Option (List String)) (spd epd scd ecd : Option String)
    (itx etx : Option (List String)) (ua : Bool) (lc : Option String)
    (t h s : Option JVal) :
    pyGet (clientSearchPayload q nr st cat incd excd spd epd scd ecd itx etx ua lc t h s)
        ("highlights") =
      h.map (fun v => match v with | .jobj fs => .jobj fs | _ => .jobj []) := by
  simp only [clientSearchPayload, List.append_assoc]
  rw [pyGet_append_none _ _ (by simp [pyGet]),
    pyGet_append_none _ _ (pyGet_strEntry_ne _ _ _ (by decide)),
    pyGet_append_none _ _ (pyGet_strListEntry_ne _ _ _ (by decide)),
    pyGet_append_none _ _ (pyGet_strListEntry_ne _ _ _ (by decide)),
    pyGet_append_none _ _ (pyGet_strEntry_ne _ _ _ (by decide)),
    pyGet_append_none _ _ (pyGet_strEntry_ne _ _ _ (by decide)),
    pyGet_append_none _ _ (pyGet_strEntry_ne _ _ _ (by decide)),
    pyGet_append_none _ _ (pyGet_strEntry_ne _ _ _ (by decide)),
    pyGet_append_none _ _ (pyGet_strListEntry_ne _ _ _ (by decide)),
    pyGet_append_none _ _ (pyGet_strListEntry_ne _ _ _ (by decide)),
    pyGet_append_none _ _ (pyGet_strEntry_ne _ _ _ (by decide)),
    pyGet_append_none _ _ (pyGet_contentEntry_ne _ _ _ (by decide))]
  cases h with
  | none =>
    rw [pyGet_append_none _ _ (by simp [contentEntry, pyGet]),
      pyGet_contentEntry_ne _ _ _ (by decide)]
    rfl
  | some v =>
    rw [pyGet_append_some _ _ (pyGet_contentEntry_self _ v)]
    rfl

/-- The `summary` key of the outbound `/search` payload. -/
theorem pyGet_search_payload_summary
    (q : String) (nr : Int) (st : String) (cat : Option String)
    (incd excd : Option (List String)) (spd epd scd ecd : Option String)
    (itx etx : Option (List String)) (ua : Bool) (lc : Option String)
    (t h s : Option JVal) :
    pyGet (clientSearchPayload q nr st cat incd excd spd epd scd ecd itx etx ua lc t h s)
        ("summary") =
      s.map (fun v => match v with | .jobj fs => .jobj fs | _ => .jobj []) := by
  simp only [clientSearchPayload, List.append_assoc]
  rw [pyGet_append_none _ _ (by simp [pyGet]),
    pyGet_append_none _ _ (pyGet_strEntry_ne _ _ _ (by decide)),
    pyGet_append_none _ _ (pyGet_strListEntry_ne _ _ _ (by decide)),
    pyGet_append_none _ _ (pyGet_strListEntry_ne _ _ _ (by decide)),
    pyGet_append_none _ _ (pyGet_strEntry_ne _ _ _ (by decide)),
    pyGet_append_none _ _ (pyGet_strEntry_ne _ _ _ (by decide)),
    pyGet_append_none _ _ (pyGet_strEntry_ne _ _ _ (by decide)),
    pyGet_append_none _ _ (pyGet_strEntry_ne _ _ _ (by decide)),
    pyGet_append_none _ _ (pyGet_strListEntry_ne _ _ _ (by decide)),
    pyGet_append_none _ _ (pyGet_strListEntry_ne _ _ _ (by decide)),
    pyGet_append_none _ _ (pyGet_strEntry_ne _ _ _ (by decide)),
    pyGet_append_none _ _ (pyGet_contentEntry_ne _ _ _ (by decide)),
    pyGet_append_none _ _ (pyGet_contentEntry_ne _ _ _ (by decide))]
  cases s with
  | none => simp [contentEntry, pyGet]
  | some v => rw [pyGet_contentEntry_self _ v]; rfl

/-! ## C1 — content options in the outbound payload -/

/-- C1 counterexample: with full text enabled and no sub-limit,
`to_api_params` yields boolean `True`, but the outbound `/search`
payload built by the client holds the empty options object `{}` for
`text` — not boolean `true` as the claim states. -/
theorem c1_counterexample :
    ContentOptions.to_api_params ⟨true, none, false, none, false⟩ =
      [(("text" : String), JVal.jbool true)] ∧
    pyGet (clientSearchPayload ("q") 10 ("auto") none none none none none none none none none
        true none
        (pyGet (ContentOptions.to_api_params ⟨true, none, false, none, false⟩) ("text"))
        (pyGet (ContentOptions.to_api_params ⟨true, none, false, none, false⟩) ("highlights"))
        (pyGet (ContentOptions.to_api_params ⟨true, none, false, none, false⟩) ("summary")))
      ("text") = some (.jobj []) ∧
    JVal.jobj [] ≠ JVal.jbool true := by decide

/-- C1 (amended): for every content-options input, a disabled toggle
never appears as a key in the outbound payload; an enabled toggle with a
truthy sub-limit appears as its options object; an enabled toggle with
no sub-limit appears as boolean `True` in the intermediate
`to_api_params` dictionary, but the client payload builder replaces
every non-dict content value with the empty options object, so the
outbound payload key holds `{}` rather than boolean `true`. -/
theorem c1_content_options_payload (c : ContentOptions)
    (q : String) (nr : Int) (st : String) (cat : Option String)
    (incd excd : Option (List String)) (spd epd scd ecd : Option String)
    (itx etx : Option (List String)) (ua : Bool) (lc : Option String) :
    (c.include_text = false →
      pyGet (clientSearchPayload q nr st cat incd excd spd epd scd ecd itx etx ua lc
        (pyGet c.to_api_params ("text")) (pyGet c.to_api_params ("highlights"))
        (pyGet c.to_api_params ("summary"))) ("text") = none) ∧
    (c.include_text = true → optIntTruthy c.max_characters = false →
      pyGet c.to_api_params ("text") = some (.jbool true) ∧
      pyGet (clientSearchPayload q nr st cat incd excd spd epd scd ecd itx etx ua lc
        (pyGet c.to_api_params ("text")) (pyGet c.to_api_params ("highlights"))
        (pyGet c.to_api_params ("summary"))) ("text") = some (.jobj [])) ∧
    (∀ m, c.include_text = true → c.max_characters = some m → m ≠ 0 →
      pyGet (clientSearchPayload q nr st cat incd excd spd epd scd ecd itx etx ua lc
        (pyGet c.to_api_params ("text")) (pyGet c.to_api_params ("highlights"))
        (pyGet c.to_api_params ("summary"))) ("text") =
        some (.jobj [(("maxCharacters" : String), .jnum m)])) ∧
    (c.include_highlights = false →
      pyGet (clientSearchPayload q nr st cat incd excd spd epd scd ecd itx etx ua lc
        (pyGet c.to_api_params ("text")) (pyGet c.to_api_params ("highlights"))
        (pyGet c.to_api_params ("summary"))) ("highlights") = none) ∧
    (c.include_highlights = true → optIntTruthy c.num_sentences = false →
      pyGet c.to_api_params ("highlights") = some (.jbool true) ∧
      pyGet (clientSearchPayload q nr st cat incd excd spd epd scd ecd itx etx ua lc
        (pyGet c.to_api_params ("text")) (pyGet c.to_api_params ("highlights"))
        (pyGet c.to_api_params ("summary"))) ("highlights") = some (.jobj [])) ∧
    (∀ m, c.include_highlights = true → c.num_sentences = some m → m ≠ 0 →
      pyGet (clientSearchPayload q nr st cat incd excd spd epd scd ecd itx etx ua lc
        (pyGet c.to_api_params ("text")) (pyGet c.to_api_params ("highlights"))
        (pyGet c.to_api_params ("summary"))) ("highlights") =
        some (.jobj [(("numSentences" : String), .jnum m)])) ∧
    (c.include_summary = false →
      pyGet (clientSearchPayload q nr st cat incd excd spd epd scd ecd itx etx ua lc
        (pyGet c.to_api_params ("text")) (pyGet c.to_api_params ("highlights"))
        (pyGet c.to_api_params ("summary"))) ("summary") = none) ∧
    (c.include_summary = true →
      pyGet c.to_api_params ("summary") = some (.jbool true) ∧
      pyGet (clientSearchPayload q nr st cat incd excd spd epd scd ecd itx etx ua lc
        (pyGet c.to_api_params ("text")) (pyGet c.to_api_params ("highlights"))
        (pyGet c.to_api_params ("summary"))) ("summary") = some (.jobj [])) := by
  refine ⟨?_, ?_, ?_, ?_, ?_, ?_, ?_, ?_⟩
  · intro hoff
    rw [pyGet_search_payload_text, pyGet_to_api_params_text, hoff]
    rfl
  · intro hon hlim
    rw [pyGet_search_payload_text, pyGet_to_api_params_text, hon]
    rcases hmc : c.max_characters with _ | m
    · exact ⟨rfl, rfl⟩
    · rw [hmc] at hlim
      simp only [optIntTruthy] at hlim
      simp [hlim]
  · intro m hon hmc hm
    rw [pyGet_search_payload_text, pyGet_to_api_params_text, hon, hmc]
    simp [hm]
  · intro hoff
    rw [pyGet_search_payload_highlights, pyGet_to_api_params_highlights, hoff]
    rfl
  · intro hon hlim
    rw [pyGet_search_payload_highlights, pyGet_to_api_params_highlights, hon]
    rcases hns : c.num_sentences with _ | m
    · exact ⟨rfl, rfl⟩
    · rw [hns] at hlim
      simp only [optIntTruthy] at hlim
      simp [hlim]
  · intro m hon hns hm
    rw [pyGet_search_payload_highlights, pyGet_to_api_params_highlights, hon, hns]
    simp [hm]
  · intro hoff
    rw [pyGet_search_payload_summary, pyGet_to_api_params_summary, hoff]
    rfl
  · intro hon
    rw [pyGet_search_payload_summary, pyGet_to_api_params_summary, hon]
    exact ⟨rfl, rfl⟩

/-- Witness for C1: a fully enabled options object with a 300-character
text sub-limit, at a concrete payload. -/
theorem c1_content_options_payload_witness :
    pyGet (clientSearchPayload ("q") 10 ("auto") none none none none none none none none none
        true none
        (pyGet (ContentOptions.to_api_params ⟨true, some 300, true, none, true⟩) ("text"))
        (pyGet (ContentOptions.to_api_params ⟨true, some 300, true, none, true⟩) ("highlights"))
        (pyGet (ContentOptions.to_api_params ⟨true, some 300, true, none, true⟩) ("summary")))
      ("text") = some (.jobj [(("maxCharacters" : String), .jnum 300)]) :=
  (c1_content_options_payload ⟨true, some 300, true, none, true⟩ ("q") 10 ("auto") none none
      none none none none none none none true none).2.2.1 300 rfl rfl (by decide)

/-! ## C5 — research-check on a running task -/

set_option maxRecDepth 100000 in
/-- C5 (code bug): `exa_research_check` reads `params.research_id`, an
attribute `GetResearchInput` does not declare (its field is `task_id`),
so with a valid input and a remote task in status `running` the tool
returns the formatted `AttributeError` string — which does not contain
"still in progress" — and never issues the remote call; the markdown
formatter itself, which the repo's own tests exercise with
`research_id`-style data, does produce "still in progress" and no
"## Report" heading for a running task without a `result` field. -/
theorem c5_research_check_attribute_error :
    exa_research_check ⟨"task_abc123", .markdown⟩ runningRemote =
      format_error_for_llm (.attributeError
        (("'GetResearchInput' object has no attribute 'research_id'").data)) ∧
    ¬ (("still in progress".data) <:+:
        exa_research_check ⟨"task_abc123", .markdown⟩ runningRemote) ∧
    (("still in progress".data) <:+: ResearchTool._format_result_markdown runningTaskData) ∧
    ¬ (("## Report".data) <:+: ResearchTool._format_result_markdown runningTaskData) := by
  refine ⟨rfl, by decide, by decide, by decide⟩

/-! ## C8 — get-contents bypasses its validator -/

/-- C8 (code bug): the `exa_get_contents` tool takes a plain
`urls: list[str]` and forwards it verbatim as the gateway `ids`, so an
untrimmed, scheme-less entry is sent as-is and an empty list still
produces a payload (a network call), while `GetContentsInput`'s
`validate_urls` — which the claim describes — would have normalized the
entry to `https://example.com` and rejected the empty list before any
network call. -/
theorem c8_get_contents_bypasses_validation :
    pyGet (exa_get_contents_payload (["  example.com  "]) none none none) ("ids") =
      some (.jarr [.jstr ("  example.com  ")]) ∧
    validate_urls (["  example.com  "]) = .ok (["https://example.com"]) ∧
    (("  example.com  " : String) ≠ ("https://example.com" : String)) ∧
    pyGet (exa_get_contents_payload [] none none none) ("ids") = some (.jarr []) ∧
    mkGetContentsUrls [] = .error (("At least one valid URL is required").data) := by
  refine ⟨by decide, by decide, by decide, by decide, by decide⟩

/-- `bind` on a successful `Except` computation. -/
theorem ebind_ok {α β : Type} (a : α) (f : α → Except ExaExc β) :
    (Except.ok a >>= f) = f a := rfl

/-- `bind` short-circuits on a raised `Except` computation. -/
theorem ebind_err {α β : Type} (e : ExaExc) (f : α → Except ExaExc β) :
    ((Except.error e : Except ExaExc α) >>= f) = Except.error e := rfl

/-- `pure` for `Except` is `ok`. -/
theorem epure {α : Type} (a : α) : (pure a : Except ExaExc α) = Except.ok a := rfl

/-- Inversion of the search item formatter: a successful run decomposes
into the base lines, the conditional field lines, and the three monadic
segments. -/
theorem search_lines_inv (r : List (String × JVal)) (i : Nat)
    (lines : List (List Char))
    (h : SearchTool._format_result_lines r i = .ok lines) :
    ∃ score hl text,
      SearchTool.scoreLines r = .ok score ∧
      SearchTool.highlightLines r = .ok hl ∧
      SearchTool.textLines r = .ok text ∧
      lines =
        [("### ".data) ++ natChars i ++ (". ".data)
            ++ pyStr ((pyGet r ("title")).getD (.jstr ("Untitled"))),
          ("**URL:** ".data) ++ pyStr ((pyGet r ("url")).getD (.jstr ("N/A")))]
        ++ truthyLine r ("publishedDate") ("**Published:** ".data)
        ++ truthyLine r ("author") ("**Author:** ".data)
        ++ score ++ hl
        ++ truthyLine r ("summary") ("\n**Summary:** ".data)
        ++ text := by
  simp only [SearchTool._format_result_lines] at h
  rcases hS : SearchTool.scoreLines r with e | score <;> rw [hS] at h
  · rw [ebind_err] at h; exact absurd h (by simp)
  rw [ebind_ok] at h
  rcases hH : SearchTool.highlightLines r with e | hl <;> rw [hH] at h
  · rw [ebind_err] at h; exact absurd h (by simp)
  rw [ebind_ok] at h
  rcases hT : SearchTool.textLines r with e | text <;> rw [hT] at h
  · rw [ebind_err] at h; exact absurd h (by simp)
  rw [ebind_ok, epure] at h
  simp only [Except.ok.injEq] at h
  exact ⟨score, hl, text, rfl, rfl, rfl, h.symm⟩

/-- Every line a `truthyLine` block emits carries its fixed label. -/
theorem truthyLine_mem (r : List (String × JVal)) (k : String) (pre l : List Char)
    (hl : l ∈ truthyLine r k pre) : ∃ v, l = pre ++ pyStr v := by
  unfold truthyLine at hl
  rcases hg : pyGet r k with _ | v <;> simp only [hg] at hl
  · simp at hl
  · by_cases ht : pyTruthy v
    · rw [if_pos ht] at hl
      simp at hl
      exact ⟨v, hl⟩
    · rw [if_neg ht] at hl
      simp at hl

/-- Shape of the search score segment: empty unless the `score` field is
present and truthy, in which case it is exactly the `Relevance` line. -/
theorem scoreLines_shape (r : List (String × JVal)) (seg : List (List Char))
    (h : SearchTool.scoreLines r = .ok seg) :
    (pyGetTruthy r ("score") = false → seg = []) ∧
    (∀ v n, pyGet r ("score") = some v → pyTruthy v = true → pyAsNum v = .ok n →
      seg = [("**Relevance:** ".data) ++ fixed2 n]) ∧
    (∀ l ∈ seg, ∃ n, l = ("**Relevance:** ".data) ++ fixed2 n) := by
  unfold SearchTool.scoreLines at h
  rcases hg : pyGet r ("score") with _ | v <;> simp only [hg] at h
  · rw [epure] at h
    simp only [Except.ok.injEq] at h
    subst h
    exact ⟨fun _ => rfl, fun v n hv => by simp at hv, fun l hl => by simp at hl⟩
  · by_cases ht : pyTruthy v
    · rw [if_pos ht] at h
      rcases hn : pyAsNum v with e | n <;> rw [hn] at h
      · rw [ebind_err] at h; exact absurd h (by simp)
      · rw [ebind_ok, epure] at h
        simp only [Except.ok.injEq] at h
        subst h
        refine ⟨?_, ?_, ?_⟩
        · intro hf
          simp [pyGetTruthy, hg, ht] at hf
        · intro v' n' hv' ht' hn'
          simp only [Option.some.injEq] at hv'
          subst hv'
          rw [hn] at hn'
          simp only [Except.ok.injEq] at hn'
          subst hn'
          rfl
        · intro l hl
          simp only [List.mem_singleton] at hl
          exact ⟨n, hl⟩
    · rw [if_neg ht] at h
      rw [epure] at h
      simp only [Except.ok.injEq] at h
      subst h
      refine ⟨fun _ => rfl, ?_, fun l hl => by simp at hl⟩
      intro v' n' hv' ht' _
      simp only [Option.some.injEq] at hv'
      subst hv'
      exact absurd ht' (by simp [ht])

/-- Every line of the search highlights segment is the header or a
quoted excerpt. -/
theorem highlightLines_shape (r : List (String × JVal)) (seg : List (List Char))
    (h : SearchTool.highlightLines r = .ok seg) :
    ∀ l ∈ seg, l = ("\n**Highlights:**".data) ∨ ∃ hv, l = ("> ".data) ++ pyStr hv := by
  unfold SearchTool.highlightLines at h
  rcases hg : pyGet r ("highlights") with _ | v <;> simp only [hg] at h
  · rw [epure] at h
    simp only [Except.ok.injEq] at h
    subst h
    intro l hl
    simp at hl
  · by_cases ht : pyTruthy v
    · rw [if_pos ht] at h
      rcases hs : pySliceTake v 3 with e | hs' <;> rw [hs] at h
      · rw [ebind_err] at h; exact absurd h (by simp)
      · rw [ebind_ok] at h
        rcases hi : pyIter hs' with e | items <;> rw [hi] at h
        · rw [ebind_err] at h; exact absurd h (by simp)
        · rw [ebind_ok, epure] at h
          simp only [Except.ok.injEq] at h
          subst h
          intro l hl
          rcases List.mem_cons.mp hl with hh | hm
          · exact Or.inl hh
          · rcases List.mem_map.mp hm with ⟨hv, _, hlv⟩
            exact Or.inr ⟨hv, hlv.symm⟩
    · rw [if_neg ht] at h
      rw [epure] at h
      simp only [Except.ok.injEq] at h
      subst h
      intro l hl
      simp at hl

/-- Shape of the search text segment: for a present, non-empty string
field it is exactly the 500-capped preview line; every line it emits
starts with the content-preview header. -/
theorem textLines_shape (r : List (String × JVal)) (seg : List (List Char))
    (h : SearchTool.textLines r = .ok seg) :
    (∀ ts : String, pyGet r ("text") = some (.jstr ts) → ts.data ≠ [] →
      seg = [("\n**Content Preview:**\n".data) ++
        (if 500 < ts.data.length then ts.data.take 500 ++ ("...".data) else ts.data)]) ∧
    (∀ l ∈ seg, ∃ suf, l = ("\n**Content Preview:**\n".data) ++ suf) := by
  unfold SearchTool.textLines at h
  rcases hg : pyGet r ("text") with _ | v <;> simp only [hg] at h
  · rw [epure] at h
    simp only [Except.ok.injEq] at h
    subst h
    exact ⟨fun ts hts => by simp at hts, fun l hl => by simp at hl⟩
  · constructor
    · intro ts hts hne
      simp only [Option.some.injEq] at hts
      subst hts
      have ht : pyTruthy (JVal.jstr ts) = true := by
        simp only [pyTruthy, decide_eq_true_eq]
        intro he
        exact hne (by simp [he])
      rw [if_pos ht] at h
      simp only [pyLen, ebind_ok] at h
      by_cases hlen : 500 < ts.data.length
      · rw [if_pos hlen] at h
        simp only [pySliceTake, ebind_ok, epure, Except.ok.injEq] at h
        subst h
        rw [if_pos hlen]
        rfl
      · rw [if_neg hlen] at h
        simp only [epure, Except.ok.injEq] at h
        subst h
        rw [if_neg hlen]
        rfl
    · intro l hl
      by_cases ht : pyTruthy v
      · rw [if_pos ht] at h
        rcases hn : pyLen v with e | n <;> rw [hn] at h
        · rw [ebind_err] at h; exact absurd h (by simp)
        · rw [ebind_ok] at h
          by_cases hlen : 500 < n
          · rw [if_pos hlen] at h
            rcases hs : pySliceTake v 500 with e | sv <;> rw [hs] at h
            · rw [ebind_err] at h; exact absurd h (by simp)
            · rw [ebind_ok] at h
              split at h
              · simp only [epure, Except.ok.injEq] at h
                subst h
                simp only [List.mem_singleton] at hl
                subst hl
                exact ⟨_, rfl⟩
              · exact absurd h (by simp)
          · rw [if_neg hlen] at h
            simp only [epure, Except.ok.injEq] at h
            subst h
            simp only [List.mem_singleton] at hl
            subst hl
            exact ⟨_, rfl⟩
      · rw [if_neg ht] at h
        rw [epure] at h
        simp only [Except.ok.injEq] at h
        subst h
        simp at hl

/-- A present, truthy field makes `truthyLine` emit exactly its line. -/
theorem truthyLine_pos (r : List (String × JVal)) (k : String) (pre : List Char)
    (v : JVal) (hv : pyGet r k = some v) (ht : pyTruthy v = true) :
    truthyLine r k pre = [pre ++ pyStr v] := by
  unfold truthyLine
  simp only [hv, if_pos ht]

/-- Inversion of the find-similar item formatter. -/
theorem similar_lines_inv (r : List (String × JVal)) (i : Nat)
    (lines : List (List Char))
    (h : SimilarTool._format_result_lines r i = .ok lines) :
    ∃ score hl text,
      SimilarTool.scoreLines r = .ok score ∧
      SimilarTool.highlightLines r = .ok hl ∧
      SimilarTool.textLines r = .ok text ∧
      lines =
        [("### ".data) ++ natChars i ++ (". ".data)
            ++ pyStr ((pyGet r ("title")).getD (.jstr ("Untitled"))),
          ("**URL:** ".data) ++ pyStr ((pyGet r ("url")).getD (.jstr ("N/A")))]
        ++ truthyLine r ("publishedDate") ("**Published:** ".data)
        ++ truthyLine r ("author") ("**Author:** ".data)
        ++ score ++ hl
        ++ truthyLine r ("summary") ("\n**Summary:** ".data)
        ++ text := by
  simp only [SimilarTool._format_result_lines] at h
  rcases hS : SimilarTool.scoreLines r with e | score <;> rw [hS] at h
  · rw [ebind_err] at h; exact absurd h (by simp)
  rw [ebind_ok] at h
  rcases hH : SimilarTool.highlightLines r with e | hl <;> rw [hH] at h
  · rw [ebind_err] at h; exact absurd h (by simp)
  rw [ebind_ok] at h
  rcases hT : SimilarTool.textLines r with e | text <;> rw [hT] at h
  · rw [ebind_err] at h; exact absurd h (by simp)
  rw [ebind_ok, epure] at h
  simp only [Except.ok.injEq] at h
  exact ⟨score, hl, text, rfl, rfl, rfl, h.symm⟩

/-- Inversion of the code-search item formatter. -/
theorem code_lines_inv (r : List (String × JVal)) (i : Nat)
    (lines : List (List Char))
    (h : SearchTool._format_code_result_lines r i = .ok lines) :
    ∃ score hl text,
      SearchTool.scoreLines r = .ok score ∧
      SearchTool.codeHighlightLines r = .ok hl ∧
      SearchTool.codeTextLines r = .ok text ∧
      lines =
        [("### ".data) ++ natChars i ++ (". ".data)
            ++ pyStr ((pyGet r ("title")).getD (.jstr ("Untitled"))),
          ("**URL:** ".data) ++ pyStr ((pyGet r ("url")).getD (.jstr ("N/A")))]
        ++ truthyLine r ("publishedDate") ("**Updated:** ".data)
        ++ score ++ hl ++ text := by
  simp only [SearchTool._format_code_result_lines] at h
  rcases hS : SearchTool.scoreLines r with e | score <;> rw [hS] at h
  · rw [ebind_err] at h; exact absurd h (by simp)
  rw [ebind_ok] at h
  rcases hH : SearchTool.codeHighlightLines r with e | hl <;> rw [hH] at h
  · rw [ebind_err] at h; exact absurd h (by simp)
  rw [ebind_ok] at h
  rcases hT : SearchTool.codeTextLines r with e | text <;> rw [hT] at h
  · rw [ebind_err] at h; exact absurd h (by simp)
  rw [ebind_ok, epure] at h
  simp only [Except.ok.injEq] at h
  exact ⟨score, hl, text, rfl, rfl, rfl, h.symm⟩

/-- Shape of the find-similar score segment (`Similarity` label). -/
theorem similar_scoreLines_shape (r : List (String × JVal)) (seg : List (List Char))
    (h : SimilarTool.scoreLines r = .ok seg) :
    (pyGetTruthy r ("score") = false → seg = []) ∧
    (∀ v n, pyGet r ("score") = some v → pyTruthy v = true → pyAsNum v = .ok n →
      seg = [("**Similarity:** ".data) ++ fixed2 n]) ∧
    (∀ l ∈ seg, ∃ n, l = ("**Similarity:** ".data) ++ fixed2 n) := by
  unfold SimilarTool.scoreLines at h
  rcases hg : pyGet r ("score") with _ | v <;> simp only [hg] at h
  · rw [epure] at h
    simp only [Except.ok.injEq] at h
    subst h
    exact ⟨fun _ => rfl, fun v n hv => by simp at hv, fun l hl => by simp at hl⟩
  · by_cases ht : pyTruthy v
    · rw [if_pos ht] at h
      rcases hn : pyAsNum v with e | n <;> rw [hn] at h
      · rw [ebind_err] at h; exact absurd h (by simp)
      · rw [ebind_ok, epure] at h
        simp only [Except.ok.injEq] at h
        subst h
        refine ⟨?_, ?_, ?_⟩
        · intro hf
          simp [pyGetTruthy, hg, ht] at hf
        · intro v' n' hv' ht' hn'
          simp only [Option.some.injEq] at hv'
          subst hv'
          rw [hn] at hn'
          simp only [Except.ok.injEq] at hn'
          subst hn'
          rfl
        · intro l hl
          simp only [List.mem_singleton] at hl
          exact ⟨n, hl⟩
    · rw [if_neg ht] at h
      rw [epure] at h
      simp only [Except.ok.injEq] at h
      subst h
      refine ⟨fun _ => rfl, ?_, fun l hl => by simp at hl⟩
      intro v' n' hv' ht' _
      simp only [Option.some.injEq] at hv'
      subst hv'
      exact absurd ht' (by simp [ht])

/-- Every line of the find-similar highlights segment is the header or a
quoted excerpt. -/
theorem similar_highlightLines_shape (r : List (String × JVal)) (seg : List (List Char))
    (h : SimilarTool.highlightLines r = .ok seg) :
    ∀ l ∈ seg, l = ("\n**Highlights:**".data) ∨ ∃ hv, l = ("> ".data) ++ pyStr hv := by
  unfold SimilarTool.highlightLines at h
  rcases hg : pyGet r ("highlights") with _ | v <;> simp only [hg] at h
  · rw [epure] at h
    simp only [Except.ok.injEq] at h
    subst h
    intro l hl
    simp at hl
  · by_cases ht : pyTruthy v
    · rw [if_pos ht] at h
      rcases hs : pySliceTake v 3 with e | hs' <;> rw [hs] at h
      · rw [ebind_err] at h; exact absurd h (by simp)
      · rw [ebind_ok] at h
        rcases hi : pyIter hs' with e | items <;> rw [hi] at h
        · rw [ebind_err] at h; exact absurd h (by simp)
        · rw [ebind_ok, epure] at h
          simp only [Except.ok.injEq] at h
          subst h
          intro l hl
          rcases List.mem_cons.mp hl with hh | hm
          · exact Or.inl hh
          · rcases List.mem_map.mp hm with ⟨hv, _, hlv⟩
            exact Or.inr ⟨hv, hlv.symm⟩
    · rw [if_neg ht] at h
      rw [epure] at h
      simp only [Except.ok.injEq] at h
      subst h
      intro l hl
      simp at hl

/-- Shape of the find-similar text segment: the same 500-capped preview
as the search formatter. -/
theorem similar_textLines_shape (r : List (String × JVal)) (seg : List (List Char))
    (h : SimilarTool.textLines r = .ok seg) :
    (∀ ts : String, pyGet r ("text") = some (.jstr ts) → ts.data ≠ [] →
      seg = [("\n**Content Preview:**\n".data) ++
        (if 500 < ts.data.length then ts.data.take 500 ++ ("...".data) else ts.data)]) ∧
    (∀ l ∈ seg, ∃ suf, l = ("\n**Content Preview:**\n".data) ++ suf) := by
  unfold SimilarTool.textLines at h
  rcases hg : pyGet r ("text") with _ | v <;> simp only [hg] at h
  · rw [epure] at h
    simp only [Except.ok.injEq] at h
    subst h
    exact ⟨fun ts hts => by simp at hts, fun l hl => by simp at hl⟩
  · constructor
    · intro ts hts hne
      simp only [Option.some.injEq] at hts
      subst hts
      have ht : pyTruthy (JVal.jstr ts) = true := by
        simp only [pyTruthy, decide_eq_true_eq]
        intro he
        exact hne (by simp [he])
      rw [if_pos ht] at h
      simp only [pyLen, ebind_ok] at h
      by_cases hlen : 500 < ts.data.length
      · rw [if_pos hlen] at h
        simp only [pySliceTake, ebind_ok, epure, Except.ok.injEq] at h
        subst h
        rw [if_pos hlen]
        rfl
      · rw [if_neg hlen] at h
        simp only [epure, Except.ok.injEq] at h
        subst h
        rw [if_neg hlen]
        rfl
    · intro l hl
      by_cases ht : pyTruthy v
      · rw [if_pos ht] at h
        rcases hn : pyLen v with e | n <;> rw [hn] at h
        · rw [ebind_err] at h; exact absurd h (by simp)
        · rw [ebind_ok] at h
          by_cases hlen : 500 < n
          · rw [if_pos hlen] at h
            rcases hs : pySliceTake v 500 with e | sv <;> rw [hs] at h
            · rw [ebind_err] at h; exact absurd h (by simp)
            · rw [ebind_ok] at h
              split at h
              · simp only [epure, Except.ok.injEq] at h
                subst h
                simp only [List.mem_singleton] at hl
                subst hl
                exact ⟨_, rfl⟩
              · exact absurd h (by simp)
          · rw [if_neg hlen] at h
            simp only [epure, Except.ok.injEq] at h
            subst h
            simp only [List.mem_singleton] at hl
            subst hl
            exact ⟨_, rfl⟩
      · rw [if_neg ht] at h
        rw [epure] at h
        simp only [Except.ok.injEq] at h
        subst h
        simp at hl

/-- The code-search text segment for a present, non-empty string field:
the preview is capped at 800 characters, not 500. -/
theorem code_textLines_eq (r : List (String × JVal)) (seg : List (List Char))
    (h : SearchTool.codeTextLines r = .ok seg) :
    ∀ ts : String, pyGet r ("text") = some (.jstr ts) → ts.data ≠ [] →
      seg = [("\n**Content:**\n".data) ++
        (if 800 < ts.data.length then ts.data.take 800 ++ ("...".data) else ts.data)] := by
  unfold SearchTool.codeTextLines at h
  rcases hg : pyGet r ("text") with _ | v <;> simp only [hg] at h
  · intro ts hts
    simp at hts
  · intro ts hts hne
    simp only [Option.some.injEq] at hts
    subst hts
    have ht : pyTruthy (JVal.jstr ts) = true := by
      simp only [pyTruthy, decide_eq_true_eq]
      intro he
      exact hne (by simp [he])
    rw [if_pos ht] at h
    simp only [pyLen, ebind_ok] at h
    by_cases hlen : 800 < ts.data.length
    · rw [if_pos hlen] at h
      simp only [pySliceTake, ebind_ok, epure, Except.ok.injEq] at h
      subst h
      rw [if_pos hlen]
      rfl
    · rw [if_neg hlen] at h
      simp only [epure, Except.ok.injEq] at h
      subst h
      rw [if_neg hlen]
      rfl

/-! ## C6 — text preview caps -/

/-- C6 (amended): the search and find-similar item blocks render a
present, non-empty text field as a preview capped at 500 characters with
an ellipsis appended exactly when the text is longer than 500; the
code-search block caps at 800 characters with the ellipsis exactly when
longer than 800. -/
theorem c6_text_preview_caps
    (r : List (String × JVal)) (i : Nat) (lines lines' linesC : List (List Char)) (ts : String)
    (h : SearchTool._format_result_lines r i = .ok lines)
    (h' : SimilarTool._format_result_lines r i = .ok lines')
    (hC : SearchTool._format_code_result_lines r i = .ok linesC)
    (hv : pyGet r ("text") = some (.jstr ts)) (hne : ts.data ≠ []) :
    (("\n**Content Preview:**\n".data) ++
      (if 500 < ts.data.length then ts.data.take 500 ++ ("...".data) else ts.data)) ∈ lines ∧
    (("\n**Content Preview:**\n".data) ++
      (if 500 < ts.data.length then ts.data.take 500 ++ ("...".data) else ts.data)) ∈ lines' ∧
    (("\n**Content:**\n".data) ++
      (if 800 < ts.data.length then ts.data.take 800 ++ ("...".data) else ts.data)) ∈ linesC := by
  obtain ⟨score, hlseg, text, hS, hH, hT, hdec⟩ := search_lines_inv r i lines h
  obtain ⟨score', hlseg', text', hS', hH', hT', hdec'⟩ := similar_lines_inv r i lines' h'
  obtain ⟨scoreC, hlC, textC, hSC, hHC, hTC, hdecC⟩ := code_lines_inv r i linesC hC
  subst hdec
  subst hdec'
  subst hdecC
  refine ⟨?_, ?_, ?_⟩
  · rw [(textLines_shape r text hT).1 ts hv hne]
    simp [List.mem_append]
  · rw [(similar_textLines_shape r text' hT').1 ts hv hne]
    simp [List.mem_append]
  · rw [code_textLines_eq r textC hTC ts hv hne]
    simp [List.mem_append]

set_option maxRecDepth 200000 in
/-- C6 counterexample: a 501-character text in the code-search block is
rendered in full — the rendered line differs in length from the
500-capped preview the claim requires. -/
theorem c6_counterexample :
    SearchTool.codeTextLines [(("text" : String), .jstr longText501)] =
      .ok [("\n**Content:**\n".data) ++ longText501.data] ∧
    500 < longText501.data.length ∧
    (("\n**Content:**\n".data) ++ longText501.data).length ≠
      (("\n**Content:**\n".data) ++ (longText501.data.take 500 ++ ("...".data))).length := by
  refine ⟨by decide, by decide, by decide⟩

set_option maxRecDepth 20000 in
/-- Witness for C6: the three formatters applied to a short text. -/
theorem c6_text_preview_caps_witness :
    SearchTool._format_result_lines [(("text" : String), .jstr ("hello"))] 1 =
      .ok [("### 1. Untitled".data), ("**URL:** N/A".data),
        ("\n**Content Preview:**\nhello".data)] ∧
    SimilarTool._format_result_lines [(("text" : String), .jstr ("hello"))] 1 =
      .ok [("### 1. Untitled".data), ("**URL:** N/A".data),
        ("\n**Content Preview:**\nhello".data)] ∧
    SearchTool._format_code_result_lines [(("text" : String), .jstr ("hello"))] 1 =
      .ok [("### 1. Untitled".data), ("**URL:** N/A".data),
        ("\n**Content:**\nhello".data)] ∧
    pyGet [(("text" : String), .jstr ("hello"))] ("text") = some (.jstr ("hello")) ∧
    ("hello" : String).data ≠ [] ∧
    ((("\n**Content Preview:**\n".data) ++
        (if 500 < ("hello" : String).data.length
         then ("hello" : String).data.take 500 ++ ("...".data)
         else ("hello" : String).data)) ∈
      [("### 1. Untitled".data), ("**URL:** N/A".data),
        ("\n**Content Preview:**\nhello".data)] ∧
     (("\n**Content Preview:**\n".data) ++
        (if 500 < ("hello" : String).data.length
         then ("hello" : String).data.take 500 ++ ("...".data)
         else ("hello" : String).data)) ∈
      [("### 1. Untitled".data), ("**URL:** N/A".data),
        ("\n**Content Preview:**\nhello".data)] ∧
     (("\n**Content:**\n".data) ++
        (if 800 < ("hello" : String).data.length
         then ("hello" : String).data.take 800 ++ ("...".data)
         else ("hello" : String).data)) ∈
      [("### 1. Untitled".data), ("**URL:** N/A".data),
        ("\n**Content:**\nhello".data)]) :=
  ⟨by decide, by decide, by decide, by decide, by decide,
   c6_text_preview_caps [(("text" : String), .jstr ("hello"))] 1 _ _ _ ("hello")
     (by decide) (by decide) (by decide) (by decide) (by decide)⟩

set_option maxRecDepth 20000 in
/-- C7 counterexample: a result with `score: 0` renders no `Relevance`
line, contradicting the claim that a present score of 0 is rendered. -/
theorem c7_counterexample :
    SearchTool._format_result_lines
      [(("title" : String), .jstr ("T")), (("url" : String), .jstr ("U")),
       (("score" : String), .jnum 0)] 1 =
      .ok [("### 1. T".data), ("**URL:** U".data)] ∧
    (("**Relevance:** ".data) ++ fixed2 0) ∉ [("### 1. T".data), ("**URL:** U".data)] := by
  refine ⟨by decide, by decide⟩

/-- A list whose first `k` characters differ from a prefix candidate's
cannot extend to anything with that prefix. -/
theorem not_prefix_append_of_take {p a : List Char} (b : List Char) (k : Nat)
    (hk1 : k ≤ p.length) (hk2 : k ≤ a.length) (hne : p.take k ≠ a.take k) :
    ¬ p <+: a ++ b := by
  rintro ⟨t, ht⟩
  apply hne
  have h2 := congrArg (List.take k) ht
  rwa [List.take_append_of_le_length hk1, List.take_append_of_le_length hk2] at h2

/-- A list whose first `k` characters differ from a candidate's is not a
prefix of it. -/
theorem not_prefix_of_take_ne {p q : List Char} (k : Nat)
    (hk1 : k ≤ p.length) (hne : p.take k ≠ q.take k) : ¬ p <+: q := by
  rintro ⟨t, ht⟩
  apply hne
  have h2 := congrArg (List.take k) ht
  rwa [List.take_append_of_le_length hk1] at h2

/-- A `truthyLine` line certifies its field present and truthy. -/
theorem truthyLine_mem_full (r : List (String × JVal)) (k : String) (pre l : List Char)
    (hl : l ∈ truthyLine r k pre) :
    ∃ v, pyGet r k = some v ∧ pyTruthy v = true ∧ l = pre ++ pyStr v := by
  unfold truthyLine at hl
  rcases hg : pyGet r k with _ | v <;> simp only [hg] at hl
  · simp at hl
  · by_cases ht : pyTruthy v
    · rw [if_pos ht] at hl
      simp at hl
      exact ⟨v, rfl, ht, hl⟩
    · rw [if_neg ht] at hl
      simp at hl

/-- A field that is absent or falsy emits no `truthyLine` line. -/
theorem truthyLine_neg (r : List (String × JVal)) (k : String) (pre : List Char)
    (hf : pyGetTruthy r k = false) : truthyLine r k pre = [] := by
  unfold truthyLine
  rcases hg : pyGet r k with _ | v
  · simp
  · simp only [pyGetTruthy, hg] at hf
    simp [hf]

/-- A present, truthy score makes the search score segment exactly its
`Relevance` line (the numeric conversion succeeds whenever the formatter
does). -/
theorem scoreLines_pos (r : List (String × JVal)) (seg : List (List Char))
    (h : SearchTool.scoreLines r = .ok seg) :
    ∀ v, pyGet r ("score") = some v → pyTruthy v = true →
      ∃ n, pyAsNum v = .ok n ∧ seg = [("**Relevance:** ".data) ++ fixed2 n] := by
  intro v hv ht
  unfold SearchTool.scoreLines at h
  simp only [hv] at h
  rw [if_pos ht] at h
  rcases hn : pyAsNum v with e | n <;> rw [hn] at h
  · rw [ebind_err] at h; exact absurd h (by simp)
  · rw [ebind_ok, epure] at h
    simp only [Except.ok.injEq] at h
    exact ⟨n, rfl, h.symm⟩

/-- Every line of the search score segment certifies a present, truthy
score. -/
theorem scoreLines_mem_full (r : List (String × JVal)) (seg : List (List Char))
    (h : SearchTool.scoreLines r = .ok seg) :
    ∀ l ∈ seg, ∃ v n, pyGet r ("score") = some v ∧ pyTruthy v = true ∧
      pyAsNum v = .ok n ∧ l = ("**Relevance:** ".data) ++ fixed2 n := by
  unfold SearchTool.scoreLines at h
  rcases hg : pyGet r ("score") with _ | v <;> simp only [hg] at h
  · rw [epure] at h
    simp only [Except.ok.injEq] at h
    subst h
    intro l hl
    simp at hl
  · by_cases ht : pyTruthy v
    · rw [if_pos ht] at h
      rcases hn : pyAsNum v with e | n <;> rw [hn] at h
      · rw [ebind_err] at h; exact absurd h (by simp)
      · rw [ebind_ok, epure] at h
        simp only [Except.ok.injEq] at h
        subst h
        intro l hl
        simp only [List.mem_singleton] at hl
        exact ⟨v, n, rfl, ht, hn, hl⟩
    · rw [if_neg ht] at h
      rw [epure] at h
      simp only [Except.ok.injEq] at h
      subst h
      intro l hl
      simp at hl

/-- A present, truthy highlights field puts the header line in the
search highlights segment. -/
theorem highlightLines_pos (r : List (String × JVal)) (seg : List (List Char))
    (h : SearchTool.highlightLines r = .ok seg) :
    ∀ v, pyGet r ("highlights") = some v → pyTruthy v = true →
      ("\n**Highlights:**".data) ∈ seg := by
  intro v hv ht
  unfold SearchTool.highlightLines at h
  simp only [hv] at h
  rw [if_pos ht] at h
  rcases hs : pySliceTake v 3 with e | hs' <;> rw [hs] at h
  · rw [ebind_err] at h; exact absurd h (by simp)
  · rw [ebind_ok] at h
    rcases hi : pyIter hs' with e | items <;> rw [hi] at h
    · rw [ebind_err] at h; exact absurd h (by simp)
    · rw [ebind_ok, epure] at h
      simp only [Except.ok.injEq] at h
      subst h
      exact List.mem_cons_self _ _

/-- Every line of the search highlights segment certifies a present,
truthy highlights field, and is the header or a quoted excerpt. -/
theorem highlightLines_mem_full (r : List (String × JVal)) (seg : List (List Char))
    (h : SearchTool.highlightLines r = .ok seg) :
    ∀ l ∈ seg, pyGetTruthy r ("highlights") = true ∧
      (l = ("\n**Highlights:**".data) ∨ ∃ hv, l = ("> ".data) ++ pyStr hv) := by
  unfold SearchTool.highlightLines at h
  rcases hg : pyGet r ("highlights") with _ | v <;> simp only [hg] at h
  · rw [epure] at h
    simp only [Except.ok.injEq] at h
    subst h
    intro l hl
    simp at hl
  · by_cases ht : pyTruthy v
    · rw [if_pos ht] at h
      rcases hs : pySliceTake v 3 with e | hs' <;> rw [hs] at h
      · rw [ebind_err] at h; exact absurd h (by simp)
      · rw [ebind_ok] at h
        rcases hi : pyIter hs' with e | items <;> rw [hi] at h
        · rw [ebind_err] at h; exact absurd h (by simp)
        · rw [ebind_ok, epure] at h
          simp only [Except.ok.injEq] at h
          subst h
          intro l hl
          refine ⟨by simp [pyGetTruthy, hg, ht], ?_⟩
          rcases List.mem_cons.mp hl with hh | hm
          · exact Or.inl hh
          · rcases List.mem_map.mp hm with ⟨hv, _, hlv⟩
            exact Or.inr ⟨hv, hlv.symm⟩
    · rw [if_neg ht] at h
      rw [epure] at h
      simp only [Except.ok.injEq] at h
      subst h
      intro l hl
      simp at hl

/-- A present, truthy text field makes the search text segment a single
line carrying the content-preview header. -/
theorem textLines_pos (r : List (String × JVal)) (seg : List (List Char))
    (h : SearchTool.textLines r = .ok seg) :
    ∀ v, pyGet r ("text") = some v → pyTruthy v = true →
      ∃ suf, seg = [("\n**Content Preview:**\n".data) ++ suf] := by
  intro v hv ht
  unfold SearchTool.textLines at h
  simp only [hv] at h
  rw [if_pos ht] at h
  rcases hn : pyLen v with e | n <;> rw [hn] at h
  · rw [ebind_err] at h; exact absurd h (by simp)
  · rw [ebind_ok] at h
    by_cases hlen : 500 < n
    · rw [if_pos hlen] at h
      rcases hs : pySliceTake v 500 with e | sv <;> rw [hs] at h
      · rw [ebind_err] at h; exact absurd h (by simp)
      · rw [ebind_ok] at h
        split at h
        · simp only [epure, Except.ok.injEq] at h
          exact ⟨_, h.symm⟩
        · exact absurd h (by simp)
    · rw [if_neg hlen] at h
      simp only [epure, Except.ok.injEq] at h
      exact ⟨_, h.symm⟩

/-- Every line of the search text segment certifies a present, truthy
text field. -/
theorem textLines_mem_full (r : List (String × JVal)) (seg : List (List Char))
    (h : SearchTool.textLines r = .ok seg) :
    ∀ l ∈ seg, pyGetTruthy r ("text") = true ∧
      ∃ suf, l = ("\n**Content Preview:**\n".data) ++ suf := by
  intro l hl
  unfold SearchTool.textLines at h
  rcases hg : pyGet r ("text") with _ | v <;> simp only [hg] at h
  · rw [epure] at h
    simp only [Except.ok.injEq] at h
    subst h
    simp at hl
  · by_cases ht : pyTruthy v
    · refine ⟨by simp [pyGetTruthy, hg, ht], ?_⟩
      rw [if_pos ht] at h
      rcases hn : pyLen v with e | n <;> rw [hn] at h
      · rw [ebind_err] at h; exact absurd h (by simp)
      · rw [ebind_ok] at h
        by_cases hlen : 500 < n
        · rw [if_pos hlen] at h
          rcases hs : pySliceTake v 500 with e | sv <;> rw [hs] at h
          · rw [ebind_err] at h; exact absurd h (by simp)
          · rw [ebind_ok] at h
            split at h
            · simp only [epure, Except.ok.injEq] at h
              subst h
              simp only [List.mem_singleton] at hl
              subst hl
              exact ⟨_, rfl⟩
            · exact absurd h (by simp)
        · rw [if_neg hlen] at h
          simp only [epure, Except.ok.injEq] at h
          subst h
          simp only [List.mem_singleton] at hl
          subst hl
          exact ⟨_, rfl⟩
    · rw [if_neg ht] at h
      rw [epure] at h
      simp only [Except.ok.injEq] at h
      subst h
      simp at hl

/-- A present, truthy score makes the find-similar score segment exactly
its `Similarity` line. -/
theorem similar_scoreLines_pos (r : List (String × JVal)) (seg : List (List Char))
    (h : SimilarTool.scoreLines r = .ok seg) :
    ∀ v, pyGet r ("score") = some v → pyTruthy v = true →
      ∃ n, pyAsNum v = .ok n ∧ seg = [("**Similarity:** ".data) ++ fixed2 n] := by
  intro v hv ht
  unfold SimilarTool.scoreLines at h
  simp only [hv] at h
  rw [if_pos ht] at h
  rcases hn : pyAsNum v with e | n <;> rw [hn] at h
  · rw [ebind_err] at h; exact absurd h (by simp)
  · rw [ebind_ok, epure] at h
    simp only [Except.ok.injEq] at h
    exact ⟨n, rfl, h.symm⟩

/-- Every line of the find-similar score segment certifies a present,
truthy score. -/
theorem similar_scoreLines_mem_full (r : List (String × JVal)) (seg : List (List Char))
    (h : SimilarTool.scoreLines r = .ok seg) :
    ∀ l ∈ seg, ∃ v n, pyGet r ("score") = some v ∧ pyTruthy v = true ∧
      pyAsNum v = .ok n ∧ l = ("**Similarity:** ".data) ++ fixed2 n := by
  unfold SimilarTool.scoreLines at h
  rcases hg : pyGet r ("score") with _ | v <;> simp only [hg] at h
  · rw [epure] at h
    simp only [Except.ok.injEq] at h
    subst h
    intro l hl
    simp at hl
  · by_cases ht : pyTruthy v
    · rw [if_pos ht] at h
      rcases hn : pyAsNum v with e | n <;> rw [hn] at h
      · rw [ebind_err] at h; exact absurd h (by simp)
      · rw [ebind_ok, epure] at h
        simp only [Except.ok.injEq] at h
        subst h
        intro l hl
        simp only [List.mem_singleton] at hl
        exact ⟨v, n, rfl, ht, hn, hl⟩
    · rw [if_neg ht] at h
      rw [epure] at h
      simp only [Except.ok.injEq] at h
      subst h
      intro l hl
      simp at hl

/-- A present, truthy highlights field puts the header line in the
find-similar highlights segment. -/
theorem similar_highlightLines_pos (r : List (String × JVal)) (seg : List (List Char))
    (h : SimilarTool.highlightLines r = .ok seg) :
    ∀ v, pyGet r ("highlights") = some v → pyTruthy v = true →
      ("\n**Highlights:**".data) ∈ seg := by
  intro v hv ht
  unfold SimilarTool.highlightLines at h
  simp only [hv] at h
  rw [if_pos ht] at h
  rcases hs : pySliceTake v 3 with e | hs' <;> rw [hs] at h
  · rw [ebind_err] at h; exact absurd h (by simp)
  · rw [ebind_ok] at h
    rcases hi : pyIter hs' with e | items <;> rw [hi] at h
    · rw [ebind_err] at h; exact absurd h (by simp)
    · rw [ebind_ok, epure] at h
      simp only [Except.ok.injEq] at h
      subst h
      exact List.mem_cons_self _ _

/-- Every line of the find-similar highlights segment certifies a
present, truthy highlights field, and is the header or a quoted
excerpt. -/
theorem similar_highlightLines_mem_full (r : List (String × JVal)) (seg : List (List Char))
    (h : SimilarTool.highlightLines r = .ok seg) :
    ∀ l ∈ seg, pyGetTruthy r ("highlights") = true ∧
      (l = ("\n**Highlights:**".data) ∨ ∃ hv, l = ("> ".data) ++ pyStr hv) := by
  unfold SimilarTool.highlightLines at h
  rcases hg : pyGet r ("highlights") with _ | v <;> simp only [hg] at h
  · rw [epure] at h
    simp only [Except.ok.injEq] at h
    subst h
    intro l hl
    simp at hl
  · by_cases ht : pyTruthy v
    · rw [if_pos ht] at h
      rcases hs : pySliceTake v 3 with e | hs' <;> rw [hs] at h
      · rw [ebind_err] at h; exact absurd h (by simp)
      · rw [ebind_ok] at h
        rcases hi : pyIter hs' with e | items <;> rw [hi] at h
        · rw [ebind_err] at h; exact absurd h (by simp)
        · rw [ebind_ok, epure] at h
          simp only [Except.ok.injEq] at h
          subst h
          intro l hl
          refine ⟨by simp [pyGetTruthy, hg, ht], ?_⟩
          rcases List.mem_cons.mp hl with hh | hm
          · exact Or.inl hh
          · rcases List.mem_map.mp hm with ⟨hv, _, hlv⟩
            exact Or.inr ⟨hv, hlv.symm⟩
    · rw [if_neg ht] at h
      rw [epure] at h
      simp only [Except.ok.injEq] at h
      subst h
      intro l hl
      simp at hl

/-- A present, truthy text field makes the find-similar text segment a
single line carrying the content-preview header. -/
theorem similar_textLines_pos (r : List (String × JVal)) (seg : List (List Char))
    (h : SimilarTool.textLines r = .ok seg) :
    ∀ v, pyGet r ("text") = some v → pyTruthy v = true →
      ∃ suf, seg = [("\n**Content Preview:**\n".data) ++ suf] := by
  intro v hv ht
  unfold SimilarTool.textLines at h
  simp only [hv] at h
  rw [if_pos ht] at h
  rcases hn : pyLen v with e | n <;> rw [hn] at h
  · rw [ebind_err] at h; exact absurd h (by simp)
  · rw [ebind_ok] at h
    by_cases hlen : 500 < n
    · rw [if_pos hlen] at h
      rcases hs : pySliceTake v 500 with e | sv <;> rw [hs] at h
      · rw [ebind_err] at h; exact absurd h (by simp)
      · rw [ebind_ok] at h
        split at h
        · simp only [epure, Except.ok.injEq] at h
          exact ⟨_, h.symm⟩
        · exact absurd h (by simp)
    · rw [if_neg hlen] at h
      simp only [epure, Except.ok.injEq] at h
      exact ⟨_, h.symm⟩

/-- Every line of the find-similar text segment certifies a present,
truthy text field. -/
theorem similar_textLines_mem_full (r : List (String × JVal)) (seg : List (List Char))
    (h : SimilarTool.textLines r = .ok seg) :
    ∀ l ∈ seg, pyGetTruthy r ("text") = true ∧
      ∃ suf, l = ("\n**Content Preview:**\n".data) ++ suf := by
  intro l hl
  unfold SimilarTool.textLines at h
  rcases hg : pyGet r ("text") with _ | v <;> simp only [hg] at h
  · rw [epure] at h
    simp only [Except.ok.injEq] at h
    subst h
    simp at hl
  · by_cases ht : pyTruthy v
    · refine ⟨by simp [pyGetTruthy, hg, ht], ?_⟩
      rw [if_pos ht] at h
      rcases hn : pyLen v with e | n <;> rw [hn] at h
      · rw [ebind_err] at h; exact absurd h (by simp)
      · rw [ebind_ok] at h
        by_cases hlen : 500 < n
        · rw [if_pos hlen] at h
          rcases hs : pySliceTake v 500 with e | sv <;> rw [hs] at h
          · rw [ebind_err] at h; exact absurd h (by simp)
          · rw [ebind_ok] at h
            split at h
            · simp only [epure, Except.ok.injEq] at h
              subst h
              simp only [List.mem_singleton] at hl
              subst hl
              exact ⟨_, rfl⟩
            · exact absurd h (by simp)
        · rw [if_neg hlen] at h
          simp only [epure, Except.ok.injEq] at h
          subst h
          simp only [List.mem_singleton] at hl
          subst hl
          exact ⟨_, rfl⟩
    · rw [if_neg ht] at h
      rw [epure] at h
      simp only [Except.ok.injEq] at h
      subst h
      simp at hl

/-- Catalog of the lines a successful search item block can contain:
each line is the title line, the URL line, or a field line certifying
its field present and truthy. -/
theorem search_lines_catalog (r : List (String × JVal)) (i : Nat)
    (lines : List (List Char))
    (h : SearchTool._format_result_lines r i = .ok lines) :
    ∀ l ∈ lines,
      (∃ w, l = ("### ".data) ++ w) ∨
      (∃ w, l = ("**URL:** ".data) ++ w) ∨
      (∃ v, pyGet r ("publishedDate") = some v ∧ pyTruthy v = true ∧
        l = ("**Published:** ".data) ++ pyStr v) ∨
      (∃ v, pyGet r ("author") = some v ∧ pyTruthy v = true ∧
        l = ("**Author:** ".data) ++ pyStr v) ∨
      (∃ v n, pyGet r ("score") = some v ∧ pyTruthy v = true ∧ pyAsNum v = .ok n ∧
        l = ("**Relevance:** ".data) ++ fixed2 n) ∨
      (pyGetTruthy r ("highlights") = true ∧
        (l = ("\n**Highlights:**".data) ∨ ∃ hv, l = ("> ".data) ++ pyStr hv)) ∨
      (∃ v, pyGet r ("summary") = some v ∧ pyTruthy v = true ∧
        l = ("\n**Summary:** ".data) ++ pyStr v) ∨
      (pyGetTruthy r ("text") = true ∧
        ∃ suf, l = ("\n**Content Preview:**\n".data) ++ suf) := by
  obtain ⟨score, hlseg, text, hS, hH, hT, hdec⟩ := search_lines_inv r i lines h
  subst hdec
  intro l hmem
  simp only [List.append_assoc] at hmem
  rcases List.mem_append.mp hmem with hb | h1
  · rcases List.mem_cons.mp hb with he | hb2
    · exact Or.inl ⟨_, he⟩
    · rcases List.mem_cons.mp hb2 with he | hb3
      · exact Or.inr (Or.inl ⟨_, he⟩)
      · simp at hb3
  · rcases List.mem_append.mp h1 with hpub | h2
    · obtain ⟨v, hv, ht, he⟩ := truthyLine_mem_full r _ _ _ hpub
      exact Or.inr (Or.inr (Or.inl ⟨v, hv, ht, he⟩))
    · rcases List.mem_append.mp h2 with hauth | h3
      · obtain ⟨v, hv, ht, he⟩ := truthyLine_mem_full r _ _ _ hauth
        exact Or.inr (Or.inr (Or.inr (Or.inl ⟨v, hv, ht, he⟩)))
      · rcases List.mem_append.mp h3 with hsc | h4
        · obtain ⟨v, n, hv, ht, hn, he⟩ := scoreLines_mem_full r score hS l hsc
          exact Or.inr (Or.inr (Or.inr (Or.inr (Or.inl ⟨v, n, hv, ht, hn, he⟩))))
        · rcases List.mem_append.mp h4 with hhl | h5
          · obtain ⟨htr, hsh⟩ := highlightLines_mem_full r hlseg hH l hhl
            exact Or.inr (Or.inr (Or.inr (Or.inr (Or.inr (Or.inl ⟨htr, hsh⟩)))))
          · rcases List.mem_append.mp h5 with hsum | htext
            · obtain ⟨v, hv, ht, he⟩ := truthyLine_mem_full r _ _ _ hsum
              exact Or.inr (Or.inr (Or.inr (Or.inr (Or.inr (Or.inr (Or.inl ⟨v, hv, ht, he⟩))))))
            · obtain ⟨htr, suf, he⟩ := textLines_mem_full r text hT l htext
              exact Or.inr (Or.inr (Or.inr (Or.inr (Or.inr (Or.inr (Or.inr ⟨htr, suf, he⟩))))))

/-- Catalog of the lines a successful find-similar item block can
contain (score label `Similarity`). -/
theorem similar_lines_catalog (r : List (String × JVal)) (i : Nat)
    (lines : List (List Char))
    (h : SimilarTool._format_result_lines r i = .ok lines) :
    ∀ l ∈ lines,
      (∃ w, l = ("### ".data) ++ w) ∨
      (∃ w, l = ("**URL:** ".data) ++ w) ∨
      (∃ v, pyGet r ("publishedDate") = some v ∧ pyTruthy v = true ∧
        l = ("**Published:** ".data) ++ pyStr v) ∨
      (∃ v, pyGet r ("author") = some v ∧ pyTruthy v = true ∧
        l = ("**Author:** ".data) ++ pyStr v) ∨
      (∃ v n, pyGet r ("score") = some v ∧ pyTruthy v = true ∧ pyAsNum v = .ok n ∧
        l = ("**Similarity:** ".data) ++ fixed2 n) ∨
      (pyGetTruthy r ("highlights") = true ∧
        (l = ("\n**Highlights:**".data) ∨ ∃ hv, l = ("> ".data) ++ pyStr hv)) ∨
      (∃ v, pyGet r ("summary") = some v ∧ pyTruthy v = true ∧
        l = ("\n**Summary:** ".data) ++ pyStr v) ∨
      (pyGetTruthy r ("text") = true ∧
        ∃ suf, l = ("\n**Content Preview:**\n".data) ++ suf) := by
  obtain ⟨score, hlseg, text, hS, hH, hT, hdec⟩ := similar_lines_inv r i lines h
  subst hdec
  intro l hmem
  simp only [List.append_assoc] at hmem
  rcases List.mem_append.mp hmem with hb | h1
  · rcases List.mem_cons.mp hb with he | hb2
    · exact Or.inl ⟨_, he⟩
    · rcases List.mem_cons.mp hb2 with he | hb3
      · exact Or.inr (Or.inl ⟨_, he⟩)
      · simp at hb3
  · rcases List.mem_append.mp h1 with hpub | h2
    · obtain ⟨v, hv, ht, he⟩ := truthyLine_mem_full r _ _ _ hpub
      exact Or.inr (Or.inr (Or.inl ⟨v, hv, ht, he⟩))
    · rcases List.mem_append.mp h2 with hauth | h3
      · obtain ⟨v, hv, ht, he⟩ := truthyLine_mem_full r _ _ _ hauth
        exact Or.inr (Or.inr (Or.inr (Or.inl ⟨v, hv, ht, he⟩)))
      · rcases List.mem_append.mp h3 with hsc | h4
        · obtain ⟨v, n, hv, ht, hn, he⟩ := similar_scoreLines_mem_full r score hS l hsc
          exact Or.inr (Or.inr (Or.inr (Or.inr (Or.inl ⟨v, n, hv, ht, hn, he⟩))))
        · rcases List.mem_append.mp h4 with hhl | h5
          · obtain ⟨htr, hsh⟩ := similar_highlightLines_mem_full r hlseg hH l hhl
            exact Or.inr (Or.inr (Or.inr (Or.inr (Or.inr (Or.inl ⟨htr, hsh⟩)))))
          · rcases List.mem_append.mp h5 with hsum | htext
            · obtain ⟨v, hv, ht, he⟩ := truthyLine_mem_full r _ _ _ hsum
              exact Or.inr (Or.inr (Or.inr (Or.inr (Or.inr (Or.inr (Or.inl ⟨v, hv, ht, he⟩))))))
            · obtain ⟨htr, suf, he⟩ := similar_textLines_mem_full r text hT l htext
              exact Or.inr (Or.inr (Or.inr (Or.inr (Or.inr (Or.inr (Or.inr ⟨htr, suf, he⟩))))))

/-- No line of a successful search item block has prefix `P`, given that
`P` cannot prefix the title or URL lines and that each field line is
either impossible (field absent or falsy) or cannot carry `P`. -/
theorem search_lines_no_label (r : List (String × JVal)) (i : Nat)
    (lines : List (List Char)) (P : List Char)
    (h : SearchTool._format_result_lines r i = .ok lines)
    (hTitle : ∀ w, ¬ P <+: ("### ".data) ++ w)
    (hUrl : ∀ w, ¬ P <+: ("**URL:** ".data) ++ w)
    (hPub : pyGetTruthy r ("publishedDate") = false ∨
      ∀ w, ¬ P <+: ("**Published:** ".data) ++ w)
    (hAuth : pyGetTruthy r ("author") = false ∨
      ∀ w, ¬ P <+: ("**Author:** ".data) ++ w)
    (hScore : pyGetTruthy r ("score") = false ∨
      ∀ w, ¬ P <+: ("**Relevance:** ".data) ++ w)
    (hHl : pyGetTruthy r ("highlights") = false ∨
      ((¬ P <+: ("\n**Highlights:**".data)) ∧ ∀ w, ¬ P <+: ("> ".data) ++ w))
    (hSum : pyGetTruthy r ("summary") = false ∨
      ∀ w, ¬ P <+: ("\n**Summary:** ".data) ++ w)
    (hText : pyGetTruthy r ("text") = false ∨
      ∀ w, ¬ P <+: ("\n**Content Preview:**\n".data) ++ w) :
    ∀ l ∈ lines, ¬ P <+: l := by
  intro l hmem hpre
  rcases search_lines_catalog r i lines h l hmem with
    ⟨w, he⟩ | ⟨w, he⟩ | ⟨v, hv, ht, he⟩ | ⟨v, hv, ht, he⟩ | ⟨v, n, hv, ht, hn, he⟩ |
    ⟨htr, he | ⟨hv, he⟩⟩ | ⟨v, hv, ht, he⟩ | ⟨htr, w, he⟩
  · exact hTitle w (he ▸ hpre)
  · exact hUrl w (he ▸ hpre)
  · rcases hPub with hf | hd
    · simp [pyGetTruthy, hv, ht] at hf
    · exact hd _ (he ▸ hpre)
  · rcases hAuth with hf | hd
    · simp [pyGetTruthy, hv, ht] at hf
    · exact hd _ (he ▸ hpre)
  · rcases hScore with hf | hd
    · simp [pyGetTruthy, hv, ht] at hf
    · exact hd _ (he ▸ hpre)
  · rcases hHl with hf | hd
    · rw [htr] at hf; simp at hf
    · exact hd.1 (he ▸ hpre)
  · rcases hHl with hf | hd
    · rw [htr] at hf; simp at hf
    · exact hd.2 _ (he ▸ hpre)
  · rcases hSum with hf | hd
    · simp [pyGetTruthy, hv, ht] at hf
    · exact hd _ (he ▸ hpre)
  · rcases hText with hf | hd
    · rw [htr] at hf; simp at hf
    · exact hd _ (he ▸ hpre)

/-- No line of a successful find-similar item block has prefix `P`
(score slot labelled `Similarity`). -/
theorem similar_lines_no_label (r : List (String × JVal)) (i : Nat)
    (lines : List (List Char)) (P : List Char)
    (h : SimilarTool._format_result_lines r i = .ok lines)
    (hTitle : ∀ w, ¬ P <+: ("### ".data) ++ w)
    (hUrl : ∀ w, ¬ P <+: ("**URL:** ".data) ++ w)
    (hPub : pyGetTruthy r ("publishedDate") = false ∨
      ∀ w, ¬ P <+: ("**Published:** ".data) ++ w)
    (hAuth : pyGetTruthy r ("author") = false ∨
      ∀ w, ¬ P <+: ("**Author:** ".data) ++ w)
    (hScore : pyGetTruthy r ("score") = false ∨
      ∀ w, ¬ P <+: ("**Similarity:** ".data) ++ w)
    (hHl : pyGetTruthy r ("highlights") = false ∨
      ((¬ P <+: ("\n**Highlights:**".data)) ∧ ∀ w, ¬ P <+: ("> ".data) ++ w))
    (hSum : pyGetTruthy r ("summary") = false ∨
      ∀ w, ¬ P <+: ("\n**Summary:** ".data) ++ w)
    (hText : pyGetTruthy r ("text") = false ∨
      ∀ w, ¬ P <+: ("\n**Content Preview:**\n".data) ++ w) :
    ∀ l ∈ lines, ¬ P <+: l := by
  intro l hmem hpre
  rcases similar_lines_catalog r i lines h l hmem with
    ⟨w, he⟩ | ⟨w, he⟩ | ⟨v, hv, ht, he⟩ | ⟨v, hv, ht, he⟩ | ⟨v, n, hv, ht, hn, he⟩ |
    ⟨htr, he | ⟨hv, he⟩⟩ | ⟨v, hv, ht, he⟩ | ⟨htr, w, he⟩
  · exact hTitle w (he ▸ hpre)
  · exact hUrl w (he ▸ hpre)
  · rcases hPub with hf | hd
    · simp [pyGetTruthy, hv, ht] at hf
    · exact hd _ (he ▸ hpre)
  · rcases hAuth with hf | hd
    · simp [pyGetTruthy, hv, ht] at hf
    · exact hd _ (he ▸ hpre)
  · rcases hScore with hf | hd
    · simp [pyGetTruthy, hv, ht] at hf
    · exact hd _ (he ▸ hpre)
  · rcases hHl with hf | hd
    · rw [htr] at hf; simp at hf
    · exact hd.1 (he ▸ hpre)
  · rcases hHl with hf | hd
    · rw [htr] at hf; simp at hf
    · exact hd.2 _ (he ▸ hpre)
  · rcases hSum with hf | hd
    · simp [pyGetTruthy, hv, ht] at hf
    · exact hd _ (he ▸ hpre)
  · rcases hText with hf | hd
    · rw [htr] at hf; simp at hf
    · exact hd _ (he ▸ hpre)

/-! ## C7 — optional sub-fields and truthiness -/

/-- C7 (amended): in the search and find-similar markdown item blocks,
each optional sub-field — publishedDate, author, score, highlights,
summary, text — is rendered when it is present with a truthy value (its
characteristic labelled line appears in the block), and only then: when
the field is absent or falsy, no line of the block starts with that
label. In particular a present score of 0 renders no score line. -/
theorem c7_subfields_truthiness
    (r : List (String × JVal)) (i : Nat) (lines lines' : List (List Char))
    (h : SearchTool._format_result_lines r i = .ok lines)
    (h' : SimilarTool._format_result_lines r i = .ok lines') :
    (∀ v, pyGet r ("publishedDate") = some v → pyTruthy v = true →
      (("**Published:** ".data) ++ pyStr v) ∈ lines ∧
      (("**Published:** ".data) ++ pyStr v) ∈ lines') ∧
    (pyGetTruthy r ("publishedDate") = false →
      (∀ l ∈ lines, ¬ (("**Published:** ".data) <+: l)) ∧
      (∀ l ∈ lines', ¬ (("**Published:** ".data) <+: l))) ∧
    (∀ v, pyGet r ("author") = some v → pyTruthy v = true →
      (("**Author:** ".data) ++ pyStr v) ∈ lines ∧
      (("**Author:** ".data) ++ pyStr v) ∈ lines') ∧
    (pyGetTruthy r ("author") = false →
      (∀ l ∈ lines, ¬ (("**Author:** ".data) <+: l)) ∧
      (∀ l ∈ lines', ¬ (("**Author:** ".data) <+: l))) ∧
    (∀ v, pyGet r ("score") = some v → pyTruthy v = true →
      ∃ n, pyAsNum v = .ok n ∧
        (("**Relevance:** ".data) ++ fixed2 n) ∈ lines ∧
        (("**Similarity:** ".data) ++ fixed2 n) ∈ lines') ∧
    (pyGetTruthy r ("score") = false →
      (∀ l ∈ lines, ¬ (("**Relevance:** ".data) <+: l)) ∧
      (∀ l ∈ lines', ¬ (("**Similarity:** ".data) <+: l))) ∧
    (∀ v, pyGet r ("highlights") = some v → pyTruthy v = true →
      ("\n**Highlights:**".data) ∈ lines ∧ ("\n**Highlights:**".data) ∈ lines') ∧
    (pyGetTruthy r ("highlights") = false →
      (∀ l ∈ lines, ¬ (("\n**Highlights:**".data) <+: l)) ∧
      (∀ l ∈ lines', ¬ (("\n**Highlights:**".data) <+: l))) ∧
    (∀ v, pyGet r ("summary") = some v → pyTruthy v = true →
      (("\n**Summary:** ".data) ++ pyStr v) ∈ lines ∧
      (("\n**Summary:** ".data) ++ pyStr v) ∈ lines') ∧
    (pyGetTruthy r ("summary") = false →
      (∀ l ∈ lines, ¬ (("\n**Summary:** ".data) <+: l)) ∧
      (∀ l ∈ lines', ¬ (("\n**Summary:** ".data) <+: l))) ∧
    (∀ v, pyGet r ("text") = some v → pyTruthy v = true →
      (∃ suf, (("\n**Content Preview:**\n".data) ++ suf) ∈ lines) ∧
      (∃ suf, (("\n**Content Preview:**\n".data) ++ suf) ∈ lines')) ∧
    (pyGetTruthy r ("text") = false →
      (∀ l ∈ lines, ¬ (("\n**Content Preview:**\n".data) <+: l)) ∧
      (∀ l ∈ lines', ¬ (("\n**Content Preview:**\n".data) <+: l))) := by
  obtain ⟨score, hlseg, text, hS, hH, hT, hdec⟩ := search_lines_inv r i lines h
  obtain ⟨score', hlseg', text', hS', hH', hT', hdec'⟩ := similar_lines_inv r i lines' h'
  refine ⟨?_, ?_, ?_, ?_, ?_, ?_, ?_, ?_, ?_, ?_, ?_, ?_⟩
  · intro v hv ht
    subst hdec
    subst hdec'
    rw [truthyLine_pos r ("publishedDate") _ v hv ht]
    constructor <;> simp [List.mem_append]
  · intro hf
    refine ⟨search_lines_no_label r i _ _ h
      (fun w => not_prefix_append_of_take w 1 (by decide) (by decide) (by decide))
      (fun w => not_prefix_append_of_take w 3 (by decide) (by decide) (by decide))
      (Or.inl hf)
      (Or.inr fun w => not_prefix_append_of_take w 3 (by decide) (by decide) (by decide))
      (Or.inr fun w => not_prefix_append_of_take w 3 (by decide) (by decide) (by decide))
      (Or.inr ⟨not_prefix_of_take_ne 1 (by decide) (by decide),
        fun w => not_prefix_append_of_take w 1 (by decide) (by decide) (by decide)⟩)
      (Or.inr fun w => not_prefix_append_of_take w 1 (by decide) (by decide) (by decide))
      (Or.inr fun w => not_prefix_append_of_take w 1 (by decide) (by decide) (by decide)),
      similar_lines_no_label r i _ _ h'
      (fun w => not_prefix_append_of_take w 1 (by decide) (by decide) (by decide))
      (fun w => not_prefix_append_of_take w 3 (by decide) (by decide) (by decide))
      (Or.inl hf)
      (Or.inr fun w => not_prefix_append_of_take w 3 (by decide) (by decide) (by decide))
      (Or.inr fun w => not_prefix_append_of_take w 3 (by decide) (by decide) (by decide))
      (Or.inr ⟨not_prefix_of_take_ne 1 (by decide) (by decide),
        fun w => not_prefix_append_of_take w 1 (by decide) (by decide) (by decide)⟩)
      (Or.inr fun w => not_prefix_append_of_take w 1 (by decide) (by decide) (by decide))
      (Or.inr fun w => not_prefix_append_of_take w 1 (by decide) (by decide) (by decide))⟩
  · intro v hv ht
    subst hdec
    subst hdec'
    rw [truthyLine_pos r ("author") _ v hv ht]
    constructor <;> simp [List.mem_append]
  · intro hf
    refine ⟨search_lines_no_label r i _ _ h
      (fun w => not_prefix_append_of_take w 1 (by decide) (by decide) (by decide))
      (fun w => not_prefix_append_of_take w 3 (by decide) (by decide) (by decide))
      (Or.inr fun w => not_prefix_append_of_take w 3 (by decide) (by decide) (by decide))
      (Or.inl hf)
      (Or.inr fun w => not_prefix_append_of_take w 3 (by decide) (by decide) (by decide))
      (Or.inr ⟨not_prefix_of_take_ne 1 (by decide) (by decide),
        fun w => not_prefix_append_of_take w 1 (by decide) (by decide) (by decide)⟩)
      (Or.inr fun w => not_prefix_append_of_take w 1 (by decide) (by decide) (by decide))
      (Or.inr fun w => not_prefix_append_of_take w 1 (by decide) (by decide) (by decide)),
      similar_lines_no_label r i _ _ h'
      (fun w => not_prefix_append_of_take w 1 (by decide) (by decide) (by decide))
      (fun w => not_prefix_append_of_take w 3 (by decide) (by decide) (by decide))
      (Or.inr fun w => not_prefix_append_of_take w 3 (by decide) (by decide) (by decide))
      (Or.inl hf)
      (Or.inr fun w => not_prefix_append_of_take w 3 (by decide) (by decide) (by decide))
      (Or.inr ⟨not_prefix_of_take_ne 1 (by decide) (by decide),
        fun w => not_prefix_append_of_take w 1 (by decide) (by decide) (by decide)⟩)
      (Or.inr fun w => not_prefix_append_of_take w 1 (by decide) (by decide) (by decide))
      (Or.inr fun w => not_prefix_append_of_take w 1 (by decide) (by decide) (by decide))⟩
  · intro v hv ht
    obtain ⟨n, hn, hseg⟩ := scoreLines_pos r score hS v hv ht
    obtain ⟨n2, hn2, hseg'⟩ := similar_scoreLines_pos r score' hS' v hv ht
    rw [hn] at hn2
    simp only [Except.ok.injEq] at hn2
    subst hn2
    subst hdec
    subst hdec'
    refine ⟨n, hn, ?_, ?_⟩
    · rw [hseg]
      simp [List.mem_append]
    · rw [hseg']
      simp [List.mem_append]
  · intro hf
    refine ⟨search_lines_no_label r i _ _ h
      (fun w => not_prefix_append_of_take w 1 (by decide) (by decide) (by decide))
      (fun w => not_prefix_append_of_take w 3 (by decide) (by decide) (by decide))
      (Or.inr fun w => not_prefix_append_of_take w 3 (by decide) (by decide) (by decide))
      (Or.inr fun w => not_prefix_append_of_take w 3 (by decide) (by decide) (by decide))
      (Or.inl hf)
      (Or.inr ⟨not_prefix_of_take_ne 1 (by decide) (by decide),
        fun w => not_prefix_append_of_take w 1 (by decide) (by decide) (by decide)⟩)
      (Or.inr fun w => not_prefix_append_of_take w 1 (by decide) (by decide) (by decide))
      (Or.inr fun w => not_prefix_append_of_take w 1 (by decide) (by decide) (by decide)),
      similar_lines_no_label r i _ _ h'
      (fun w => not_prefix_append_of_take w 1 (by decide) (by decide) (by decide))
      (fun w => not_prefix_append_of_take w 3 (by decide) (by decide) (by decide))
      (Or.inr fun w => not_prefix_append_of_take w 3 (by decide) (by decide) (by decide))
      (Or.inr fun w => not_prefix_append_of_take w 3 (by decide) (by decide) (by decide))
      (Or.inl hf)
      (Or.inr ⟨not_prefix_of_take_ne 1 (by decide) (by decide),
        fun w => not_prefix_append_of_take w 1 (by decide) (by decide) (by decide)⟩)
      (Or.inr fun w => not_prefix_append_of_take w 1 (by decide) (by decide) (by decide))
      (Or.inr fun w => not_prefix_append_of_take w 1 (by decide) (by decide) (by decide))⟩
  · intro v hv ht
    have hm := highlightLines_pos r hlseg hH v hv ht
    have hm' := similar_highlightLines_pos r hlseg' hH' v hv ht
    subst hdec
    subst hdec'
    constructor <;> · simp only [List.mem_append]
                      tauto
  · intro hf
    refine ⟨search_lines_no_label r i _ _ h
      (fun w => not_prefix_append_of_take w 1 (by decide) (by decide) (by decide))
      (fun w => not_prefix_append_of_take w 1 (by decide) (by decide) (by decide))
      (Or.inr fun w => not_prefix_append_of_take w 1 (by decide) (by decide) (by decide))
      (Or.inr fun w => not_prefix_append_of_take w 1 (by decide) (by decide) (by decide))
      (Or.inr fun w => not_prefix_append_of_take w 1 (by decide) (by decide) (by decide))
      (Or.inl hf)
      (Or.inr fun w => not_prefix_append_of_take w 4 (by decide) (by decide) (by decide))
      (Or.inr fun w => not_prefix_append_of_take w 4 (by decide) (by decide) (by decide)),
      similar_lines_no_label r i _ _ h'
      (fun w => not_prefix_append_of_take w 1 (by decide) (by decide) (by decide))
      (fun w => not_prefix_append_of_take w 1 (by decide) (by decide) (by decide))
      (Or.inr fun w => not_prefix_append_of_take w 1 (by decide) (by decide) (by decide))
      (Or.inr fun w => not_prefix_append_of_take w 1 (by decide) (by decide) (by decide))
      (Or.inr fun w => not_prefix_append_of_take w 1 (by decide) (by decide) (by decide))
      (Or.inl hf)
      (Or.inr fun w => not_prefix_append_of_take w 4 (by decide) (by decide) (by decide))
      (Or.inr fun w => not_prefix_append_of_take w 4 (by decide) (by decide) (by decide))⟩
  · intro v hv ht
    subst hdec
    subst hdec'
    rw [truthyLine_pos r ("summary") _ v hv ht]
    constructor <;> simp [List.mem_append]
  · intro hf
    refine ⟨search_lines_no_label r i _ _ h
      (fun w => not_prefix_append_of_take w 1 (by decide) (by decide) (by decide))
      (fun w => not_prefix_append_of_take w 1 (by decide) (by decide) (by decide))
      (Or.inr fun w => not_prefix_append_of_take w 1 (by decide) (by decide) (by decide))
      (Or.inr fun w => not_prefix_append_of_take w 1 (by decide) (by decide) (by decide))
      (Or.inr fun w => not_prefix_append_of_take w 1 (by decide) (by decide) (by decide))
      (Or.inr ⟨not_prefix_of_take_ne 4 (by decide) (by decide),
        fun w => not_prefix_append_of_take w 1 (by decide) (by decide) (by decide)⟩)
      (Or.inl hf)
      (Or.inr fun w => not_prefix_append_of_take w 4 (by decide) (by decide) (by decide)),
      similar_lines_no_label r i _ _ h'
      (fun w => not_prefix_append_of_take w 1 (by decide) (by decide) (by decide))
      (fun w => not_prefix_append_of_take w 1 (by decide) (by decide) (by decide))
      (Or.inr fun w => not_prefix_append_of_take w 1 (by decide) (by decide) (by decide))
      (Or.inr fun w => not_prefix_append_of_take w 1 (by decide) (by decide) (by decide))
      (Or.inr fun w => not_prefix_append_of_take w 1 (by decide) (by decide) (by decide))
      (Or.inr ⟨not_prefix_of_take_ne 4 (by decide) (by decide),
        fun w => not_prefix_append_of_take w 1 (by decide) (by decide) (by decide)⟩)
      (Or.inl hf)
      (Or.inr fun w => not_prefix_append_of_take w 4 (by decide) (by decide) (by decide))⟩
  · intro v hv ht
    obtain ⟨suf, hseg⟩ := textLines_pos r text hT v hv ht
    obtain ⟨suf', hseg'⟩ := similar_textLines_pos r text' hT' v hv ht
    subst hdec
    subst hdec'
    constructor
    · refine ⟨suf, ?_⟩
      rw [hseg]
      simp [List.mem_append]
    · refine ⟨suf', ?_⟩
      rw [hseg']
      simp [List.mem_append]
  · intro hf
    refine ⟨search_lines_no_label r i _ _ h
      (fun w => not_prefix_append_of_take w 1 (by decide) (by decide) (by decide))
      (fun w => not_prefix_append_of_take w 1 (by decide) (by decide) (by decide))
      (Or.inr fun w => not_prefix_append_of_take w 1 (by decide) (by decide) (by decide))
      (Or.inr fun w => not_prefix_append_of_take w 1 (by decide) (by decide) (by decide))
      (Or.inr fun w => not_prefix_append_of_take w 1 (by decide) (by decide) (by decide))
      (Or.inr ⟨not_prefix_of_take_ne 4 (by decide) (by decide),
        fun w => not_prefix_append_of_take w 1 (by decide) (by decide) (by decide)⟩)
      (Or.inr fun w => not_prefix_append_of_take w 4 (by decide) (by decide) (by decide))
      (Or.inl hf),
      similar_lines_no_label r i _ _ h'
      (fun w => not_prefix_append_of_take w 1 (by decide) (by decide) (by decide))
      (fun w => not_prefix_append_of_take w 1 (by decide) (by decide) (by decide))
      (Or.inr fun w => not_prefix_append_of_take w 1 (by decide) (by decide) (by decide))
      (Or.inr fun w => not_prefix_append_of_take w 1 (by decide) (by decide) (by decide))
      (Or.inr fun w => not_prefix_append_of_take w 1 (by decide) (by decide) (by decide))
      (Or.inr ⟨not_prefix_of_take_ne 4 (by decide) (by decide),
        fun w => not_prefix_append_of_take w 1 (by decide) (by decide) (by decide)⟩)
      (Or.inr fun w => not_prefix_append_of_take w 4 (by decide) (by decide) (by decide))
      (Or.inl hf)⟩


set_option maxRecDepth 20000 in
/-- Witness for C7: a truthy publishedDate renders its line in both formatters. -/
theorem c7_subfields_truthiness_witness :
    SearchTool._format_result_lines [(("publishedDate" : String), .jstr ("2024"))] 1 =
      .ok [("### 1. Untitled".data), ("**URL:** N/A".data), ("**Published:** 2024".data)] ∧
    SimilarTool._format_result_lines [(("publishedDate" : String), .jstr ("2024"))] 1 =
      .ok [("### 1. Untitled".data), ("**URL:** N/A".data), ("**Published:** 2024".data)] ∧
    ((("**Published:** ".data) ++ pyStr (JVal.jstr ("2024"))) ∈
      [("### 1. Untitled".data), ("**URL:** N/A".data), ("**Published:** 2024".data)] ∧
     (("**Published:** ".data) ++ pyStr (JVal.jstr ("2024"))) ∈
      [("### 1. Untitled".data), ("**URL:** N/A".data), ("**Published:** 2024".data)]) :=
  ⟨by decide, by decide,
   (c7_subfields_truthiness [(("publishedDate" : String), .jstr ("2024"))] 1 _ _
     (by decide) (by decide)).1 (.jstr ("2024")) (by decide) (by decide)⟩
